import Mathlib

/-!
# Verification of the Siloq cannibalization-detection core

Shallow embedding, in Lean 4, of the URL utilities and pipeline phases of
`seo/cannibalization/` (utils.py, phase1_ingest.py, phase2_safe_filters.py,
phase5_wrong_winner.py, phase6_cluster.py, pipeline.py), together with proofs
and refutations of the spec's claims about them.

Strings are modelled as Lean `String` restricted to ASCII (the code lowercases
with `str.lower()` and strips with `str.strip()`, which we model on the ASCII
whitespace and letter ranges).  `urllib.parse.urlparse` is modelled after the
CPython ≥ 3.10 algorithm for bracket-free URLs (the `[`/`]` IPv6 validation
errors, caught by the code's `try/except`, are not modelled).

The repository ships without `constants.py` and without `phase3_static_detect.py`,
`phase4_gsc_validate.py`, `phase7_fix.py`; where a claim needs those, the
missing definitions are modelled from the spec and are marked
`Modelled from the spec:` in their doc comments.
-/

namespace Siloq

/-! ## Python string primitives -/

/-- ASCII lowercase of one character, as Python `str.lower` acts on ASCII. -/
def asciiLower (c : Char) : Char :=
  if 'A' ≤ c ∧ c ≤ 'Z' then Char.ofNat (c.toNat + 32) else c

/-- Python `str.lower()` (ASCII fragment). -/
def pyLower (s : String) : String := String.mk (s.data.map asciiLower)

/-- Split a character list at every character satisfying `p`, keeping empty
pieces, as Python `re.split` on a single-character class or `str.split(c)`. -/
def splitOnPred (p : Char → Bool) : List Char → List (List Char)
  | [] => [[]]
  | c :: cs =>
    match splitOnPred p cs with
    | piece :: rest => if p c then [] :: piece :: rest else (c :: piece) :: rest
    | [] => [[]]

/-- Python `s.split(sep)` for a one-character separator, as strings. -/
def pySplitChar (sep : Char) (s : String) : List String :=
  (splitOnPred (· = sep) s.data).map String.mk

/-- Python `'/'.join(parts)`-style join with a one-character separator. -/
def joinWithChar (sep : Char) : List (List Char) → List Char
  | [] => []
  | [piece] => piece
  | piece :: rest => piece ++ sep :: joinWithChar sep rest

/-- The ASCII whitespace characters removed by Python `str.strip()`. -/
def isPyWs (c : Char) : Bool :=
  c = ' ' || c = '\t' || c = '\n' || c = '\x0d' || c = '\x0b' || c = '\x0c'

/-- Python `str.strip()` on a character list. -/
def pyStripList (l : List Char) : List Char :=
  ((l.dropWhile isPyWs).reverse.dropWhile isPyWs).reverse

/-- Python `str.strip()` (ASCII fragment). -/
def pyStrip (s : String) : String := String.mk (pyStripList s.data)

/-- Python `str.rstrip(c)` for a single strip character, on a list. -/
def rstripChar (c : Char) (l : List Char) : List Char :=
  (l.reverse.dropWhile (· = c)).reverse

/-- Python `str.strip(c)` for a single strip character, on a list. -/
def stripCharBoth (c : Char) (l : List Char) : List Char :=
  ((l.dropWhile (· = c)).reverse.dropWhile (· = c)).reverse

/-- Python `str.isdigit()` for ASCII strings: non-empty and all chars `0`-`9`. -/
def pyIsdigit (s : String) : Bool :=
  s ≠ "" && s.data.all (fun c => '0' ≤ c && c ≤ '9')

/-- Numeric value of an ASCII digit string (Python `int(...)` on such input). -/
def pyToNat (s : String) : Nat :=
  s.data.foldl (fun n c => 10 * n + (c.toNat - '0'.toNat)) 0

/-- Python `str.split()` with no argument: split on whitespace runs,
dropping empty pieces. -/
def pySplitWs (s : String) : List String :=
  ((splitOnPred isPyWs s.data).map String.mk).filter (fun p => p ≠ "")

/-- Python `needle in haystack` substring test. -/
def pyContains (haystack needle : String) : Bool :=
  (List.range (haystack.data.length + 1)).any
    (fun i => needle.data.isPrefixOf (haystack.data.drop i))

/-! ## `urllib.parse.urlparse`, CPython ≥ 3.10, scheme/netloc/path fields

`urlsplit` first removes the unsafe bytes tab/CR/LF, then splits off a scheme
(a leading alpha, scheme chars, before the first `:`), then a netloc (after a
leading `//`, up to `/`, `?` or `#`), then fragment (first `#`) and query
(first `?`), in that order.  `urlparse` additionally strips `;params` from the
last path segment.  Query, fragment and params are discarded by every caller
in this codebase, so only their effect on `path` is kept. -/

/-- A character allowed inside a URL scheme (`scheme_chars` in CPython). -/
def isSchemeChar (c : Char) : Bool :=
  ('a' ≤ c && c ≤ 'z') || ('A' ≤ c && c ≤ 'Z') ||
    ('0' ≤ c && c ≤ '9') || c = '+' || c = '-' || c = '.'

def isAsciiAlpha (c : Char) : Bool :=
  ('a' ≤ c && c ≤ 'z') || ('A' ≤ c && c ≤ 'Z')

/-- CPython's unsafe-byte removal at the top of `urlsplit`. -/
def removeUnsafeBytes (l : List Char) : List Char :=
  l.filter (fun c => ¬(c = '\t' || c = '\x0d' || c = '\n'))

/-- Scheme split of `urlsplit`: `some (scheme, rest)` when the text before the
first `:` is a valid non-empty scheme, otherwise `none`. -/
def splitScheme (l : List Char) : Option (List Char × List Char) :=
  match l.findIdx? (· = ':') with
  | none => none
  | some i =>
    if 0 < i && (l.take i).all isSchemeChar &&
        (match l.head? with | some c => isAsciiAlpha c | none => false) then
      some (l.take i, l.drop (i + 1))
    else
      none

def isNetlocDelim (c : Char) : Bool := c = '/' || c = '?' || c = '#'

/-- `_splitparams` of `urlparse`: drop `;params` from the last path segment. -/
def pySplitparams (p : List Char) : List Char :=
  if ';' ∈ p then
    if '/' ∈ p then
      let lastSeg := (p.reverse.takeWhile (· ≠ '/')).reverse
      let before := p.take (p.length - lastSeg.length)
      if ';' ∈ lastSeg then before ++ lastSeg.takeWhile (· ≠ ';') else p
    else
      p.takeWhile (· ≠ ';')
  else p

structure ParseResult where
  scheme : List Char
  netloc : List Char
  path : List Char
  deriving Repr, DecidableEq

/-- `urllib.parse.urlparse`, restricted to the scheme/netloc/path fields. -/
def pyUrlparse (s : String) : ParseResult :=
  let l0 := removeUnsafeBytes s.data
  let rest :=
    match splitScheme l0 with
    | some (_, b) => b
    | none => l0
  let scheme :=
    match splitScheme l0 with
    | some (a, _) => a.map asciiLower
    | none => []
  let netloc :=
    if rest.take 2 = ['/', '/'] then (rest.drop 2).takeWhile (fun c => ¬ isNetlocDelim c)
    else []
  let rest2 :=
    if rest.take 2 = ['/', '/'] then (rest.drop 2).dropWhile (fun c => ¬ isNetlocDelim c)
    else rest
  let rawPath := rest2.takeWhile (fun c => ¬(c = '#' || c = '?'))
  { scheme := scheme, netloc := netloc, path := pySplitparams rawPath }

/-! ## `utils.py` -/

/-- Python `netloc.replace('www.', '')`: remove every non-overlapping
occurrence of `www.`, scanning left to right. -/
def replaceWWW : List Char → List Char
  | 'w' :: 'w' :: 'w' :: '.' :: rest => replaceWWW rest
  | c :: rest => c :: replaceWWW rest
  | [] => []

/-- `utils.normalize_full_url`: lowercase + strip, parse, drop `www.` from the
netloc, right-strip `/` from the path, return `netloc ++ path`. -/
def normalize_full_url (url : String) : String :=
  if url = "" then ""
  else
    let p := pyUrlparse (pyStrip (pyLower url))
    let domain := replaceWWW p.netloc
    let path := rstripChar '/' p.path
    String.mk (domain ++ path)

/-- `utils.normalize_path`: parse after strip, lowercase the path, trim a
trailing slash (except for root), ensure a leading slash. -/
def normalize_path (url : String) : String :=
  if url = "" then "/"
  else
    let p := pyUrlparse (pyStrip url)
    let path := p.path.map asciiLower
    let path :=
      if path.getLast? = some '/' && path.length > 1 then rstripChar '/' path
      else path
    let path := if path.head? = some '/' then path else '/' :: path
    String.mk path

/-- `utils.get_path_parts`: non-empty `/`-separated segments of the
normalized path. -/
def get_path_parts (url : String) : List String :=
  (pySplitChar '/' (String.mk (stripCharBoth '/' (normalize_path url).data))).filter
    (fun p => p ≠ "")

/-- `utils.get_folder_root`. -/
def get_folder_root (url : String) : String :=
  match get_path_parts url with
  | p :: _ => p
  | [] => ""

/-- `utils.get_parent_path`. -/
def get_parent_path (url : String) : String :=
  let parts := get_path_parts url
  if parts.length ≤ 1 then "/"
  else String.mk ('/' :: joinWithChar '/' ((parts.dropLast).map String.data))

/-- `utils.get_slug_last`. -/
def get_slug_last (url : String) : String :=
  match (get_path_parts url).getLast? with
  | some p => p
  | none => ""

/-- Modelled from the spec: `constants.SLUG_STOP_WORDS` is absent from the
sources ("a fixed stop-word set", §3).  A representative set; `for` and
`blog` are included because the `extract_slug_tokens` docstring example maps
`/blog/2024/best-dance-shoes-for-beginners/` to exactly
`{best, dance, shoes, beginners}`. -/
def SLUG_STOP_WORDS : Finset String :=
  {"the", "and", "for", "with", "from", "your", "blog"}

/-- `utils.extract_slug_tokens`: split every path part on `-`/`_`, drop
year-shaped tokens 2015–2030, drop tokens shorter than 3 chars, optionally
subtract the stop words. -/
def extract_slug_tokens (url : String) (remove_stop_words : Bool) : Finset String :=
  let parts := get_path_parts (normalize_path url)
  let raw := (parts.map (fun part => (splitOnPred (fun c => c = '-' || c = '_') (pyLower part).data).map String.mk)).flatten
  let tokens := raw.toFinset
  let tokens := tokens.filter
    (fun t => ¬(pyIsdigit t = true ∧ 2015 ≤ pyToNat t ∧ pyToNat t ≤ 2030))
  let tokens := tokens.filter (fun t => 3 ≤ t.length)
  if remove_stop_words then tokens \ SLUG_STOP_WORDS else tokens

/-- `utils.slug_similarity`: Jaccard similarity of slug-token sets, in ℚ. -/
def slug_similarity (url1 url2 : String) : ℚ :=
  let tokens1 := extract_slug_tokens url1 true
  let tokens2 := extract_slug_tokens url2 true
  if tokens1 = ∅ ∧ tokens2 = ∅ then 0
  else
    let inter := tokens1 ∩ tokens2
    let union := tokens1 ∪ tokens2
    if union = ∅ then 0 else mkRat inter.card union.card

/-- Modelled from the spec: `constants.LEGACY_SUFFIXES` is absent from the
sources; the spec (§3) and the utils docstrings name `-old`, `-backup`, `-2`,
`-copy`. Order matters for `strip_legacy_suffix`'s first-match loop. -/
def LEGACY_SUFFIXES : List String := ["-old", "-backup", "-2", "-copy"]

/-- `utils.is_legacy_variant`: the last slug ends in a known legacy suffix. -/
def is_legacy_variant (url : String) : Bool :=
  if url = "" then false
  else LEGACY_SUFFIXES.any (fun suf => suf.data.isSuffixOf (get_slug_last url).data)

/-- `utils.strip_legacy_suffix`: remove the first matching legacy suffix from
the last slug (plus trailing dashes) and rejoin the path. -/
def strip_legacy_suffix (url : String) : String :=
  if url = "" then url
  else
    let parts := get_path_parts url
    match parts.getLast? with
    | none => url
    | some last =>
      match LEGACY_SUFFIXES.find? (fun suf => suf.data.isSuffixOf last.data) with
      | none => url
      | some suf =>
        let clean := String.mk (rstripChar '-' (last.data.take (last.data.length - suf.data.length)))
        String.mk ('/' :: joinWithChar '/' ((parts.dropLast ++ [clean]).map String.data))

/-- `utils.normalize_geo`: lowercase, strip, remove `-`, `_`, whitespace. -/
def normalize_geo (slug : String) : String :=
  if slug = "" then ""
  else
    let n := pyStrip (pyLower slug)
    String.mk (n.data.filter (fun c => ¬(c = '-' || isPyWs c || c = '_')))

/-- The location-folder set hard-coded inside `utils.extract_geo_node`. -/
def geoLocationFolders : List String :=
  ["service-area", "service-areas", "locations", "location", "city", "cities"]

/-- `utils.extract_geo_node`: last path segment of a ≥2-deep path under a
location folder. -/
def extract_geo_node (url : String) : Option String :=
  let parts := get_path_parts url
  if 2 ≤ parts.length ∧ (∃ p ∈ parts.head?, p ∈ geoLocationFolders) then
    parts.getLast?
  else none

/-- The folder sets hard-coded inside `utils.extract_service_keyword`. -/
def eskLocationFolders : List String :=
  ["service-area", "service-areas", "locations", "location"]

def eskServiceFolders : List String :=
  ["service", "services", "residential", "commercial"]

/-- `utils.extract_service_keyword`. -/
def extract_service_keyword (url : String) : Option String :=
  let parts := get_path_parts url
  match parts with
  | p0 :: p1 :: _ =>
    if 3 ≤ parts.length ∧ p0 ∈ eskLocationFolders then some p1
    else if p0 ∈ eskServiceFolders then some p1
    else none
  | _ => none

/-- `utils.is_direct_parent`: the child path has exactly one more part and
extends the parent's parts. -/
def is_direct_parent (parent_url child_url : String) : Bool :=
  let parent_parts := get_path_parts parent_url
  let child_parts := get_path_parts child_url
  decide (child_parts.length = parent_parts.length + 1 ∧
    parent_parts = child_parts.take parent_parts.length)

/-- `utils.has_distinct_subtopic`: the child's slug tokens are not a superset
of the parent's slug tokens. -/
def has_distinct_subtopic (child_url parent_url : String) : Bool :=
  let parent_slug := get_slug_last parent_url
  let child_slug := get_slug_last child_url
  if parent_slug = "" ∨ child_slug = "" then false
  else
    let parent_tokens := (pySplitChar '-' parent_slug).toFinset
    let child_tokens := (pySplitChar '-' child_slug).toFinset
    if parent_tokens ⊆ child_tokens then false else true

/-- Modelled from the spec: `constants.INTENT_MARKERS` is absent from the
sources; the spec (§4.5) gives the ordered marker table verbatim. -/
def INTENT_MARKERS : List (String × List String) :=
  [("listicle", ["best", "top", "vs", "review", "compare", "ranking"]),
   ("informational", ["how", "what", "why", "guide", "tips", "tutorial", "ideas"]),
   ("navigational", ["login", "contact", "about", "hours", "location"]),
   ("transactional", ["buy", "price", "cost", "near me", "service", "company", "hire"])]

/-- Modelled from the spec: `constants.GEO_MODIFIERS` is absent from the
sources ("a small geographic-adverb set", §4.5); a representative set. -/
def GEO_MODIFIERS : List String := ["in ", "near "]

/-- `utils.classify_query_intent`: first marker table row with a substring hit
wins; independently detect a local modifier. -/
def classify_query_intent (query : String) : String × Bool :=
  let query_lower := pyLower query
  let has_local := GEO_MODIFIERS.any (fun geo => pyContains query_lower geo)
  match INTENT_MARKERS.find? (fun im => im.2.any (fun m => pyContains query_lower m)) with
  | some im => (im.1, has_local)
  | none => ("ambiguous", has_local)

/-- `utils.is_plural_query`: last whitespace-separated word ends in `s` but
not in `ss`, `us` or `is`. -/
def is_plural_query (query : String) : Bool :=
  if query = "" then false
  else
    match (pySplitWs (pyLower query)).getLast? with
    | none => false
    | some last_word =>
      "s".data.isSuffixOf last_word.data &&
        !("ss".data.isSuffixOf last_word.data) &&
        !("us".data.isSuffixOf last_word.data) &&
        !("is".data.isSuffixOf last_word.data)

/-! ## `phase1_ingest.py` -/

/-- Modelled from the spec: `constants.FOLDER_ROOTS` is absent from the
sources. Field contents follow §4.1 and the sets used by `utils.py` and
exercised by `tests/test_phase1.py` (location includes `service-area` and
`locations`; blog includes `blog`). -/
structure FolderRoots where
  location : List String
  blog : List String
  product_rentals : List String
  service : List String
  portfolio : List String
  utility : List String

def FOLDER_ROOTS : FolderRoots :=
  { location := ["service-area", "service-areas", "locations", "location", "city", "cities"]
    blog := ["blog", "news", "articles"]
    product_rentals := ["rentals"]
    service := ["services", "service"]
    portfolio := ["portfolio", "projects"]
    utility := ["cart", "checkout", "my-account", "wp-admin"] }

/-- `phase1_ingest._classify_page_type`: the priority-ordered rule chain,
first match wins. -/
def _classify_page_type (path : String) (parts : List String) (depth : Nat)
    (folder_root : String) (post_type : Option String)
    (is_homepage_flag : Bool) : String :=
  if path = "/" ∨ is_homepage_flag = true then "homepage"
  else if folder_root ∈ FOLDER_ROOTS.location then "location"
  else if 3 ≤ parts.length ∧ pyIsdigit (parts.getD 0 "") = true ∧
      pyIsdigit (parts.getD 1 "") = true then "blog"
  else if folder_root ∈ FOLDER_ROOTS.blog then "blog"
  else if post_type = some "product" then "product"
  else if post_type = some "product_cat" ∨ post_type = some "product_category" then
    "category_woo"
  else if folder_root = "shop" ∧ depth = 1 then "shop_root"
  else if folder_root = "shop" ∧ depth = 2 then "category_shop"
  else if folder_root = "shop" ∧ 3 ≤ depth then "product"
  else if parts ≠ [] ∧ (parts.getLast? = some "products" ∨ parts.getLast? = some "items") then
    "product_index"
  else if folder_root = "product-category" then
    if 3 ≤ depth then "product" else "category_woo"
  else if folder_root ∈ FOLDER_ROOTS.product_rentals ∧ depth = 2 then "category_custom"
  else if folder_root ∈ FOLDER_ROOTS.product_rentals ∧ 3 ≤ depth then "product"
  else if folder_root ∈ FOLDER_ROOTS.service ∧ depth = 1 then "service_hub"
  else if folder_root ∈ FOLDER_ROOTS.service ∧ 2 ≤ depth then "service_spoke"
  else if folder_root ∈ FOLDER_ROOTS.portfolio then "portfolio"
  else if folder_root ∈ FOLDER_ROOTS.utility then "utility"
  else "uncategorized"

/-- A `PageClassification` record (models.PageClassification), with the fields
the downstream phases read. -/
structure PageClassification where
  page_id : Nat
  url : String
  title : String
  normalized_url : String
  normalized_path : String
  classified_type : String
  is_legacy_variant : Bool
  folder_root : String
  parent_path : String
  slug_last : String
  depth : Nat
  geo_node : String
  service_keyword : String
  slug_tokens_json : List String
  deriving Repr, DecidableEq

/-! ## `phase2_safe_filters.py` -/

/-- `phase2_safe_filters._is_legacy_pair`. -/
def _is_legacy_pair (path_a path_b : String) : Bool :=
  decide (strip_legacy_suffix path_a = strip_legacy_suffix path_b ∧ path_a ≠ path_b)

/-- `phase2_safe_filters._are_product_siblings`. -/
def _are_product_siblings (page_a page_b : PageClassification) : Bool :=
  if page_a.classified_type ≠ "product" ∨ page_b.classified_type ≠ "product" then false
  else if page_a.parent_path ≠ page_b.parent_path then false
  else if page_a.slug_last = page_b.slug_last then false
  else if (page_a.is_legacy_variant = true ∨ page_b.is_legacy_variant = true) ∧
      _is_legacy_pair page_a.normalized_path page_b.normalized_path = true then false
  else if mkRat 4 5 ≤ slug_similarity page_a.normalized_path page_b.normalized_path then false
  else true

/-- `phase2_safe_filters._are_parent_child`. -/
def _are_parent_child (page_a page_b : PageClassification) : Bool :=
  (is_direct_parent page_a.normalized_path page_b.normalized_path &&
    has_distinct_subtopic page_b.normalized_path page_a.normalized_path) ||
  (is_direct_parent page_b.normalized_path page_a.normalized_path &&
    has_distinct_subtopic page_a.normalized_path page_b.normalized_path)

/-- `phase2_safe_filters._are_geographic_variants`. -/
def _are_geographic_variants (page_a page_b : PageClassification) : Bool :=
  if page_a.classified_type ≠ "location" ∨ page_b.classified_type ≠ "location" then false
  else if page_a.geo_node = "" ∨ page_b.geo_node = "" then false
  else if normalize_geo page_a.geo_node = normalize_geo page_b.geo_node then false
  else true

/-- `phase2_safe_filters._is_safe_pair`. -/
def _is_safe_pair (page_a page_b : PageClassification) : Bool :=
  _are_product_siblings page_a page_b || _are_parent_child page_a page_b ||
    _are_geographic_variants page_a page_b

/-- `phase2_safe_filters.run_phase2`: the set of safe unordered page-id pairs
(Python set of frozensets, modelled as a `Finset` of `Finset Nat`). -/
def run_phase2 (classifications : List PageClassification) : Finset (Finset Nat) :=
  (classifications.flatMap (fun a =>
    classifications.map (fun b => (a, b)))).foldl
    (fun s ab =>
      if ab.1.page_id < ab.2.page_id ∧ _is_safe_pair ab.1 ab.2 = true then
        insert {ab.1.page_id, ab.2.page_id} s
      else s) ∅

/-! ## Python's stable sort

Python `list.sort`/`sorted` is a stable sort; a stable sort with respect to a
total preorder is unique as a function of the key, so a stable insertion sort
is an exact model (and, unlike a well-founded merge sort, it kernel-reduces). -/

/-- Stable sort with respect to the total preorder `r` (Mathlib's insertion
sort is stable, as Python's sort is). -/
def pySort (r : α → α → Prop) [DecidableRel r] (l : List α) : List α :=
  List.insertionSort r l

/-- Decimal rendering of a `Nat` (Python `str(n)`), by fuel so that it
kernel-reduces. -/
def natToStrAux : Nat → Nat → List Char
  | 0, _ => []
  | fuel + 1, n =>
    if n < 10 then [Char.ofNat (48 + n)]
    else natToStrAux fuel (n / 10) ++ [Char.ofNat (48 + n % 10)]

def natToStr (n : Nat) : String := String.mk (natToStrAux (n + 1) n)

/-! ## `phase5_wrong_winner.py` -/

/-- One preprocessed GSC row as built by `run_phase5`'s grouping loop.  The
`position` float is carried by the Python dict but never read by the
wrong-winner logic, so it is omitted. -/
structure P5Row where
  query : String
  page_url : String
  normalized_url : String
  page_class : PageClassification
  clicks : Nat
  impressions : Nat
  deriving Repr, DecidableEq

/-- The conflict-type-specific metadata bag of an Issue.  Only the keys read
by phase 6 (plus `legacy_url`, read by the cluster-key recipe) are modelled;
purely informational keys (`winner_type`, `query_intent`, …) are dropped. -/
structure IssueMetadata where
  query : Option String
  shared_slug : Option String
  title_template : Option String
  service_keyword : Option String
  legacy_url : Option String
  total_impressions : Option Nat
  total_clicks : Option Nat
  gsc_rows : Option (List P5Row)
  deriving Repr, DecidableEq

def IssueMetadata.empty : IssueMetadata :=
  ⟨none, none, none, none, none, none, none, none⟩

/-- An Issue record (the Python dicts emitted by phases 3, 4 and 5).
`gsc_validated` is absent from most Python dicts and read with
`.get('gsc_validated')` (falsy default), modelled by a plain `Bool`. -/
structure Issue where
  conflict_type : String
  severity : String
  pages : List PageClassification
  metadata : IssueMetadata
  gsc_validated : Bool
  deriving Repr, DecidableEq

/-- `phase5_wrong_winner._has_query_overlap`. -/
def _has_query_overlap (query : String) (page : PageClassification) : Bool :=
  let query_words := (pySplitWs (pyLower query)).toFinset \ SLUG_STOP_WORDS
  let page_tokens := page.slug_tokens_json.toFinset
  decide (0 < (query_words ∩ page_tokens).card)

def isWordChar (c : Char) : Bool :=
  ('a' ≤ c && c ≤ 'z') || ('A' ≤ c && c ≤ 'Z') || ('0' ≤ c && c ≤ '9') || c = '_'

def isLowerAlpha (c : Char) : Bool := 'a' ≤ c && c ≤ 'z'

/-- Tail of the regex `\b<kw>\s+([a-z]+(?:\s+[a-z]+)?)` once `<kw>` has
matched: require whitespace then a lowercase word, then greedily take one
optional further whitespace-separated lowercase word.  Returns the captured
group. -/
def matchCityTail (l : List Char) : Option (List Char) :=
  let ws1 := l.takeWhile isPyWs
  if ws1 = [] then none
  else
    let r1 := l.dropWhile isPyWs
    let w1 := r1.takeWhile isLowerAlpha
    if w1 = [] then none
    else
      let r2 := r1.dropWhile isLowerAlpha
      let ws2 := r2.takeWhile isPyWs
      let r3 := r2.dropWhile isPyWs
      let w2 := r3.takeWhile isLowerAlpha
      if ws2 ≠ [] ∧ w2 ≠ [] then some (w1 ++ ws2 ++ w2) else some w1

/-- Leftmost match of `\b<kw>\s+([a-z]+(?:\s+[a-z]+)?)`: scan positions left
to right; at each position require a word boundary before `kw`. `prev` is the
character preceding the current position. -/
def scanCity (kw : List Char) : List Char → Option Char → Option (List Char)
  | [], _ => none
  | c :: rest, prev =>
    if (match prev with | some p => !isWordChar p | none => true) &&
        kw.isPrefixOf (c :: rest) then
      match matchCityTail ((c :: rest).drop kw.length) with
      | some city => some city
      | none => scanCity kw rest (some c)
    else scanCity kw rest (some c)

/-- `phase5_wrong_winner._extract_city_from_query`: regex search for
`\bin\s+([a-z]+(?:\s+[a-z]+)?)`, then the same with `near`. -/
def _extract_city_from_query (query : String) : Option String :=
  let ql := (pyLower query).data
  match scanCity "in".data ql none with
  | some city => some (pyStrip (String.mk city))
  | none =>
    match scanCity "near".data ql none with
    | some city => some (pyStrip (String.mk city))
    | none => none

/-- `phase5_wrong_winner._detect_wrong_winner`: the four mismatch patterns,
tried in order; a pattern whose inner guard fails falls through to the next. -/
def _detect_wrong_winner (query : String) (winner : P5Row)
    (classifications : List PageClassification) : Option Issue :=
  let winner_page := winner.page_class
  let qi := classify_query_intent query
  let query_intent := qi.1
  let has_local := qi.2
  let is_plural := is_plural_query query
  let m1 : Option Issue :=
    if query_intent = "transactional" ∧ winner_page.classified_type ∈ (["blog"] : List String) then
      let better_pages := classifications.filter (fun pc =>
        pc.classified_type ∈ ["category_woo", "category_shop", "category_custom",
          "service_hub", "service_spoke", "product"] ∧ _has_query_overlap query pc = true)
      if better_pages ≠ [] then
        some { conflict_type := "INTENT_MISMATCH", severity := "MEDIUM",
               pages := winner_page :: better_pages.take 2,
               metadata := { IssueMetadata.empty with query := some query },
               gsc_validated := false }
      else none
    else none
  match m1 with
  | some i => some i
  | none =>
  let m2 : Option Issue :=
    if is_plural = true ∧ winner_page.classified_type = "product" then
      let category_pages := classifications.filter (fun pc =>
        pc.classified_type ∈ ["category_woo", "category_shop", "category_custom"] ∧
          _has_query_overlap query pc = true)
      if category_pages ≠ [] then
        some { conflict_type := "PAGE_TYPE_MISMATCH", severity := "MEDIUM",
               pages := winner_page :: category_pages.take 1,
               metadata := { IssueMetadata.empty with query := some query },
               gsc_validated := false }
      else none
    else none
  match m2 with
  | some i => some i
  | none =>
  let m3 : Option Issue :=
    if winner_page.classified_type = "homepage" then
      let specific_pages := classifications.filter (fun pc =>
        pc.classified_type ∈ ["service_hub", "service_spoke", "product",
          "category_woo", "category_shop"] ∧ _has_query_overlap query pc = true)
      if specific_pages ≠ [] then
        some { conflict_type := "HOMEPAGE_HOARDING", severity := "MEDIUM",
               pages := winner_page :: specific_pages.take 2,
               metadata := { IssueMetadata.empty with query := some query },
               gsc_validated := false }
      else none
    else none
  match m3 with
  | some i => some i
  | none =>
    if has_local = true ∧ winner_page.classified_type = "location" then
      match _extract_city_from_query query with
      | none => none
      | some query_city =>
        let query_city_norm := normalize_geo query_city
        let winner_city_norm :=
          if winner_page.geo_node ≠ "" then normalize_geo winner_page.geo_node else ""
        if query_city_norm ≠ "" ∧ winner_city_norm ≠ "" ∧
            query_city_norm ≠ winner_city_norm then
          match classifications.filter (fun pc =>
              pc.classified_type = "location" ∧
                normalize_geo pc.geo_node = query_city_norm) with
          | correct :: _ =>
            some { conflict_type := "GEOGRAPHIC_MISMATCH", severity := "HIGH",
                   pages := [winner_page, correct],
                   metadata := { IssueMetadata.empty with query := some query },
                   gsc_validated := false }
          | [] => none
        else none
    else none

/-- The per-query body of `run_phase5`'s analysis loop: sort the group's rows
by impressions descending (Python `sorted(..., reverse=True)`, stable), take
the winner, run the detector. -/
def phase5_analyze_query (query : String) (rows : List P5Row)
    (classifications : List PageClassification) : Option Issue :=
  match pySort (fun a b => b.impressions ≤ a.impressions) rows with
  | [] => none
  | winner :: _ => _detect_wrong_winner query winner classifications

/-! ## `phase6_cluster.py` -/

def MAX_CLUSTER_SIZE : Nat := 15

/-- Modelled from the spec: `constants.BUCKET_SCORES` is absent from the
sources; §4.6 gives the table. `.get(bucket, 0)` default included. -/
def BUCKET_SCORES (b : String) : Nat :=
  if b = "SEARCH_CONFLICT" then 50
  else if b = "WRONG_WINNER" then 30
  else if b = "SITE_DUPLICATION" then 20
  else 0

/-- Modelled from the spec: `constants.SEVERITY_SCORES` is absent from the
sources; §4.6 gives the table. -/
def SEVERITY_SCORES (s : String) : Nat :=
  if s = "SEVERE" then 30
  else if s = "HIGH" then 22
  else if s = "MEDIUM" then 14
  else if s = "LOW" then 6
  else 0

/-- Modelled from the spec: impression thresholds (§4.6). -/
def IMPRESSION_THRESHOLD_HIGH : Nat := 10000

def IMPRESSION_THRESHOLD_MEDIUM : Nat := 1000

/-- `phase6_cluster._severity_rank`. -/
def _severity_rank (severity : String) : Nat :=
  if severity = "SEVERE" then 4
  else if severity = "HIGH" then 3
  else if severity = "MEDIUM" then 2
  else if severity = "LOW" then 1
  else 0

/-- `phase6_cluster._get_bucket`. -/
def _get_bucket (issue : Issue) : String :=
  if issue.gsc_validated = true ∨ "GSC_".data.isPrefixOf issue.conflict_type.data = true then
    "SEARCH_CONFLICT"
  else if issue.conflict_type ∈ ["INTENT_MISMATCH", "GEOGRAPHIC_MISMATCH",
      "PAGE_TYPE_MISMATCH", "HOMEPAGE_HOARDING"] then
    "WRONG_WINNER"
  else "SITE_DUPLICATION"

/-- `phase6_cluster._get_badge`. -/
def _get_badge (issue : Issue) : String :=
  let bucket := _get_bucket issue
  if bucket = "SEARCH_CONFLICT" then "CONFIRMED"
  else if bucket = "WRONG_WINNER" then "WRONG_WINNER"
  else "POTENTIAL"

/-- `phase6_cluster._get_action_code`. -/
def _get_action_code (issue : Issue) : String :=
  let ct := issue.conflict_type
  if ct = "TAXONOMY_CLASH" then "REDIRECT_TO_CANONICAL"
  else if ct = "LEGACY_CLEANUP" then "REDIRECT_TO_CANONICAL"
  else if ct = "LEGACY_ORPHAN" then "REVIEW_AND_REDIRECT"
  else if ct = "NEAR_DUPLICATE_CONTENT" then "REDIRECT_TO_CANONICAL"
  else if ct = "CONTEXT_DUPLICATE" then "REDIRECT_OR_DIFFERENTIATE"
  else if ct = "LOCATION_BOILERPLATE" then "REWRITE_LOCAL_EVIDENCE"
  else if ct = "GSC_CONFIRMED" then "REDIRECT_TO_CANONICAL"
  else if ct = "INTENT_MISMATCH" then "STRENGTHEN_CORRECT_PAGE"
  else if ct = "GEOGRAPHIC_MISMATCH" then "REWRITE_LOCAL_EVIDENCE"
  else if ct = "PAGE_TYPE_MISMATCH" then "STRENGTHEN_CORRECT_PAGE"
  else if ct = "HOMEPAGE_HOARDING" then "STRENGTHEN_CORRECT_PAGE"
  else "REVIEW_AND_REDIRECT"

/-- `phase6_cluster._generate_cluster_key`. -/
def _generate_cluster_key (issue : Issue) : String :=
  let ct := issue.conflict_type
  if ct = "LEGACY_CLEANUP" ∨ ct = "LEGACY_ORPHAN" then
    ct ++ ":" ++ get_slug_last (strip_legacy_suffix (issue.metadata.legacy_url.getD ""))
  else if ct = "TAXONOMY_CLASH" then
    ct ++ ":" ++ issue.metadata.shared_slug.getD "unknown"
  else if ct = "LOCATION_BOILERPLATE" then
    ct ++ ":" ++ String.mk ((issue.metadata.title_template.getD "unknown").data.take 50)
  else if ct = "CONTEXT_DUPLICATE" then
    ct ++ ":" ++ issue.metadata.service_keyword.getD "unknown"
  else if ct = "GSC_CONFIRMED" then
    ct ++ ":" ++ issue.metadata.query.getD "unknown"
  else if ct ∈ ["INTENT_MISMATCH", "GEOGRAPHIC_MISMATCH", "PAGE_TYPE_MISMATCH",
      "HOMEPAGE_HOARDING"] then
    ct ++ ":" ++ issue.metadata.query.getD "unknown"
  else if ct = "NEAR_DUPLICATE_CONTENT" then
    let ids := pySort (fun a b => a ≤ b) (issue.pages.map (·.page_id))
    ct ++ ":" ++ String.mk (joinWithChar '_' (ids.map (fun i => (natToStr i).data)))
  else ct ++ ":default"

/-- The merged GSC bag of a cluster (Python dict with optional keys). -/
structure GscData where
  total_impressions : Option Nat
  total_clicks : Option Nat
  gsc_rows : Option (List P5Row)
  queries : Option (List String)
  deriving Repr, DecidableEq

def GscData.empty : GscData := ⟨none, none, none, none⟩

/-- The per-key accumulator of `run_phase6`'s grouping loop.  In Python the
defaultdict entry starts with `conflict_type = None` and the four header
fields are written when the first issue arrives; here the accumulator is
created at that moment, which is observationally the same. -/
structure ClusterAcc where
  conflict_type : String
  bucket : String
  badge : String
  action_code : String
  severity : Option String
  pages : List (Nat × PageClassification)
  gsc : GscData
  deriving Repr, DecidableEq

/-- Python `dict[k] = v`: keep the original insertion position when the key
exists, else append. -/
def dictInsert (d : List (Nat × PageClassification)) (k : Nat)
    (v : PageClassification) : List (Nat × PageClassification) :=
  if d.any (fun kv => decide (kv.1 = k)) then
    d.map (fun kv => if kv.1 = k then (k, v) else kv)
  else d ++ [(k, v)]

/-- The GSC-merge block of `run_phase6`'s loop. -/
def updateGsc (g : GscData) (m : IssueMetadata) : GscData :=
  let g := match m.total_impressions with
    | some n => { g with total_impressions := some (g.total_impressions.getD 0 + n) }
    | none => g
  let g := match m.total_clicks with
    | some n => { g with total_clicks := some (g.total_clicks.getD 0 + n) }
    | none => g
  let g := match m.gsc_rows with
    | some rs => { g with gsc_rows := some (g.gsc_rows.getD [] ++ rs) }
    | none => g
  match m.query with
  | some q => { g with queries := some (g.queries.getD [] ++ [q]) }
  | none => g

/-- The per-issue merge body of `run_phase6`'s loop (severity upgrade, page
collection, GSC merge).  The four header fields are never touched. -/
def mergeIssue (acc : ClusterAcc) (issue : Issue) : ClusterAcc :=
  let severity := match acc.severity with
    | none => some issue.severity
    | some s =>
      if _severity_rank s < _severity_rank issue.severity then some issue.severity
      else some s
  { acc with
    severity := severity
    pages := issue.pages.foldl (fun d p => dictInsert d p.page_id p) acc.pages
    gsc := updateGsc acc.gsc issue.metadata }

/-- A fresh accumulator for a key's first issue: header fields from that
issue, then the merge body. -/
def newClusterAcc (issue : Issue) : ClusterAcc :=
  mergeIssue
    { conflict_type := issue.conflict_type, bucket := _get_bucket issue,
      badge := _get_badge issue, action_code := _get_action_code issue,
      severity := none, pages := [], gsc := GscData.empty }
    issue

/-- The grouping loop of `run_phase6`: an insertion-ordered map from
cluster key to accumulator (Python dict preserves insertion order). -/
def clusterFold (all_issues : List Issue) : List (String × ClusterAcc) :=
  all_issues.foldl
    (fun m issue =>
      let key := _generate_cluster_key issue
      if m.any (fun kv => decide (kv.1 = key)) then
        m.map (fun kv => if kv.1 = key then (key, mergeIssue kv.2 issue) else kv)
      else m ++ [(key, newClusterAcc issue)])
    []

/-- `phase6_cluster._calculate_priority`.  `severity` may be Python `None`
(scored 0 by `.get`). -/
def _calculate_priority (bucket : String) (severity : Option String)
    (impressions : Nat) : Nat :=
  let bucket_score := BUCKET_SCORES bucket
  let severity_score := match severity with
    | some s => SEVERITY_SCORES s
    | none => 0
  let impression_score :=
    if IMPRESSION_THRESHOLD_HIGH ≤ impressions then 20
    else if IMPRESSION_THRESHOLD_MEDIUM ≤ impressions then 10
    else if 0 < impressions then 5
    else 0
  bucket_score + severity_score + impression_score

/-- The folder-root grouping of `_split_large_cluster` (defaultdict of lists,
insertion-ordered). -/
def folderGroups (pages : List PageClassification) :
    List (String × List PageClassification) :=
  pages.foldl
    (fun gs p =>
      if gs.any (fun g => decide (g.1 = p.folder_root)) then
        gs.map (fun g => if g.1 = p.folder_root then (g.1, g.2 ++ [p]) else g)
      else gs ++ [(p.folder_root, [p])])
    []

/-- Python `max(groups.values(), key=len)`: the first group of maximal
length. -/
def largestGroup (gs : List (String × List PageClassification)) :
    List PageClassification :=
  gs.foldl (fun best g => if best.length < g.2.length then g.2 else best) []

/-- `phase6_cluster._split_large_cluster` (the `cluster_key` argument is
unused by the logic). -/
def _split_large_cluster (pages : List PageClassification)
    (_cluster_key : String) : List PageClassification :=
  let folder_groups := folderGroups pages
  if 1 < folder_groups.length then
    let largest_group := largestGroup folder_groups
    if largest_group.length ≤ MAX_CLUSTER_SIZE then largest_group.take MAX_CLUSTER_SIZE
    else pages.take MAX_CLUSTER_SIZE
  else pages.take MAX_CLUSTER_SIZE

/-- `phase6_cluster._generate_recommendation` (page count is taken from the
uncapped page dict, as in the source). -/
def _generate_recommendation (conflict_type : String) (page_count : Nat) : String :=
  let n := natToStr page_count
  if conflict_type = "TAXONOMY_CLASH" then
    "Choose ONE canonical folder structure for these " ++ n ++ " pages. Redirect duplicates via 301."
  else if conflict_type = "LEGACY_CLEANUP" then
    "Redirect " ++ n ++ " legacy pages to their clean versions via 301."
  else if conflict_type = "LEGACY_ORPHAN" then
    "Review " ++ n ++ " orphaned legacy pages. Either redirect to a current page or update the URL."
  else if conflict_type = "NEAR_DUPLICATE_CONTENT" then
    "Consolidate " ++ n ++ " near-duplicate pages. Choose canonical, redirect others."
  else if conflict_type = "CONTEXT_DUPLICATE" then
    "Either merge " ++ n ++ " duplicate service pages or differentiate with unique content (70%+ different)."
  else if conflict_type = "LOCATION_BOILERPLATE" then
    "Rewrite " ++ n ++ " location pages with unique local evidence: venue names, local reviews, neighborhood photos."
  else if conflict_type = "GSC_CONFIRMED" then
    "Google sees " ++ n ++ " pages competing for the same query. Consolidate or canonicalize."
  else if conflict_type = "INTENT_MISMATCH" then
    "De-optimize blog for this commercial keyword. Strengthen the correct page."
  else if conflict_type = "GEOGRAPHIC_MISMATCH" then
    "Add unique local evidence to the correct location page. Prune city mentions from wrong page."
  else if conflict_type = "PAGE_TYPE_MISMATCH" then
    "Strengthen the category page. De-optimize product page for generic keywords."
  else if conflict_type = "HOMEPAGE_HOARDING" then
    "Remove service content from homepage. Add clear link from homepage to service page."
  else "Review and resolve " ++ n ++ " conflicting pages."

/-- A Cluster record (the output dicts of `run_phase6`). -/
structure Cluster where
  cluster_key : String
  conflict_type : String
  bucket : String
  badge : String
  severity : Option String
  action_code : String
  priority_score : Nat
  page_count : Nat
  pages : List PageClassification
  gsc_data : Option GscData
  recommendation : String
  deriving Repr, DecidableEq, Inhabited

def bucketRank (b : String) : Nat :=
  if b = "SEARCH_CONFLICT" then 0 else if b = "SITE_DUPLICATION" then 1 else 2

/-- Build one output cluster from a grouped accumulator (the body of
`run_phase6`'s output loop). -/
def buildCluster (kv : String × ClusterAcc) : Cluster :=
  let key := kv.1
  let c := kv.2
  let all_pages := c.pages.map (·.2)
  let capped :=
    if MAX_CLUSTER_SIZE < all_pages.length then _split_large_cluster all_pages key
    else all_pages
  { cluster_key := key, conflict_type := c.conflict_type, bucket := c.bucket,
    badge := c.badge, severity := c.severity, action_code := c.action_code,
    priority_score :=
      _calculate_priority c.bucket c.severity (c.gsc.total_impressions.getD 0),
    page_count := capped.length, pages := capped,
    gsc_data := if c.gsc = GscData.empty then none else some c.gsc,
    recommendation := _generate_recommendation c.conflict_type c.pages.length }

/-- `phase6_cluster.run_phase6`: group, build, cap, score, sort
(`(bucket_rank asc, priority_score desc)`, stable). -/
def run_phase6 (all_issues : List Issue) : List Cluster :=
  if all_issues = [] then []
  else
    pySort
      (fun a b =>
        bucketRank a.bucket < bucketRank b.bucket ∨
          (bucketRank a.bucket = bucketRank b.bucket ∧
            b.priority_score ≤ a.priority_score))
      ((clusterFold all_issues).map buildCluster)

/-! ## Phase 4 (modelled): `phase4_gsc_validate.py` is absent from src -/

/-- Modelled from the spec: `phase4_gsc_validate._calculate_severity` (absent
from the sources; spec §4.4 severity table, exercised by
`tests/test_phase4.py::TestSeverityCalculation`).  `shares` are the per-row
impression shares in impressions-descending row order; the secondary share is
the second entry. -/
def _calculate_severity (shares : List ℚ) : String :=
  if 3 ≤ (shares.filter (fun s => mkRat 1 10 ≤ s)).length then "SEVERE"
  else
    match shares with
    | _ :: secondary :: _ =>
      if mkRat 7 20 ≤ secondary then "HIGH"
      else if mkRat 3 20 ≤ secondary then "MEDIUM"
      else "LOW"
    | _ => "LOW"

/-- The survivors of one query group, with their shares: sort rows by
impressions descending (stable), attach `share = impressions / total`, drop
rows with share < 0.05 and zero clicks.  Shares are computed once and not
recomputed after the noise drop (spec §9 note). -/
def p4_survivors (rows : List P5Row) : List (P5Row × ℚ) :=
  let total : Nat := (rows.map (·.impressions)).sum
  let sorted := pySort (fun a b : P5Row => b.impressions ≤ a.impressions) rows
  let shared := sorted.map (fun r => (r, mkRat r.impressions total))
  shared.filter (fun rs => ¬(rs.2 < mkRat 1 20 ∧ rs.1.clicks = 0))

/-- Modelled from the spec: `phase4_gsc_validate._analyze_query_group`
(absent from the sources; spec §4.4, exercised by
`tests/test_phase4.py::TestImpressionShareCalculation`): with fewer than 2
survivors, or a top share ≥ 0.85, the query is not cannibalization; with a
secondary share ≥ 0.15 a `GSC_CONFIRMED` Issue over the surviving pages is
emitted, with severity from the per-row shares. -/
def _analyze_query_group (query : String) (rows : List P5Row) : Option Issue :=
  if (rows.map (·.impressions)).sum = 0 then none
  else
    let survivors := p4_survivors rows
    match survivors with
    | top :: secondary :: _ =>
      if mkRat 17 20 ≤ top.2 then none
      else if mkRat 3 20 ≤ secondary.2 then
        some { conflict_type := "GSC_CONFIRMED",
               severity := _calculate_severity (survivors.map (·.2)),
               pages := survivors.map (fun rs => rs.1.page_class),
               metadata := { IssueMetadata.empty with
                 query := some query,
                 total_impressions := some ((survivors.map (fun rs => rs.1.impressions)).sum),
                 total_clicks := some ((survivors.map (fun rs => rs.1.clicks)).sum),
                 gsc_rows := some (survivors.map (·.1)) },
               gsc_validated := true }
      else none
    | _ => none

/-! ## `pipeline.py` -/

/-- The fields of the persisted `AnalysisRun` outcome that the claims read,
plus the phase-4/5 issue lists of the run. -/
structure RunResult where
  status : String
  gsc_connected : Bool
  error_message : String
  gsc_issues : List Issue
  wrong_winner_issues : List Issue
  clusters : List Cluster
  deriving Repr, DecidableEq

/-- `pipeline._fetch_gsc_data`: the traffic-source call is wrapped in
`try/except`; a throwing source is caught and yields `[]` (the exception is
only printed). -/
def fetch_gsc_data {α : Type} (fetch : Except String (List α)) : List α :=
  match fetch with
  | .ok rows => rows
  | .error _ => []

/-- `pipeline.run_analysis` after a successful site lookup and phase 1 (the
classification list is given).  `phase3`, `phase4`, `upgrade_static` and the
full grouping loop of `run_phase5` live in files absent from src, so they are
taken as parameters; the control flow — the degraded GSC path, the empty-
corpus failure, `status`, and `gsc_connected` (written once, at run creation,
as `include_gsc`, and never updated) — is the source's. -/
def run_analysis_model {α : Type}
    (phase3 : List PageClassification → Finset (Finset Nat) → List Issue)
    (phase4 : List PageClassification → List α → Option String → String → List Issue)
    (upgrade_static : List Issue → List Issue → List Issue)
    (phase5 : List PageClassification → List α → Option String → String → List Issue)
    (classifications : List PageClassification) (include_gsc : Bool)
    (gscFetch : Except String (List α))
    (brand_name : Option String) (homepage_title : String) : RunResult :=
  if classifications = [] then
    { status := "failed", gsc_connected := include_gsc,
      error_message := "No pages found to analyze",
      gsc_issues := [], wrong_winner_issues := [], clusters := [] }
  else
    let safe_pairs := run_phase2 classifications
    let static_issues := phase3 classifications safe_pairs
    let gsc_data := if include_gsc then fetch_gsc_data gscFetch else []
    let step :=
      match include_gsc, gsc_data with
      | true, _ :: _ =>
        let gsc_issues := phase4 classifications gsc_data brand_name homepage_title
        let static2 := upgrade_static static_issues gsc_issues
        let ww := phase5 classifications gsc_data brand_name homepage_title
        (static2, gsc_issues, ww)
      | _, _ => (static_issues, [], [])
    { status := "completed", gsc_connected := include_gsc, error_message := "",
      gsc_issues := step.2.1, wrong_winner_issues := step.2.2,
      clusters := run_phase6 (step.1 ++ step.2.1 ++ step.2.2) }

/-! ## Spec-side definitions for the claims (written from the spec's words,
for comparison with the source-derived definitions above) -/

/-- Claim C2's reading of the date rule: the path begins with a four-digit
year segment followed by a two-digit month segment. -/
def specYearMonthPrefix (parts : List String) : Prop :=
  2 ≤ parts.length ∧ (parts.getD 0 "").length = 4 ∧ pyIsdigit (parts.getD 0 "") = true ∧
    (parts.getD 1 "").length = 2 ∧ pyIsdigit (parts.getD 1 "") = true

/-- Claim C4's severity rule, read off the spec sentence: SEVERE when ≥ 3
rows have share ≥ 0.10, else HIGH when the secondary share ≥ 0.35, else
MEDIUM when it lies in [0.15, 0.35), else LOW. -/
def specSeverityRule (shares : List ℚ) : String :=
  if 3 ≤ (shares.filter (fun s => mkRat 1 10 ≤ s)).length then "SEVERE"
  else
    match shares with
    | _ :: secondary :: _ =>
      if mkRat 7 20 ≤ secondary then "HIGH"
      else if mkRat 3 20 ≤ secondary ∧ secondary < mkRat 7 20 then "MEDIUM"
      else "LOW"
    | _ => "LOW"

/-! ## Concrete fixtures used by counterexamples and witnesses -/

/-- A minimal concrete classification record. -/
def mkFixPage (i : Nat) (url ty folder : String) : PageClassification :=
  { page_id := i, url := url, title := "", normalized_url := normalize_full_url url,
    normalized_path := normalize_path url, classified_type := ty,
    is_legacy_variant := is_legacy_variant url, folder_root := folder,
    parent_path := get_parent_path url, slug_last := get_slug_last url,
    depth := (get_path_parts url).length, geo_node := "", service_keyword := "",
    slug_tokens_json := [] }

/-- First TAXONOMY_CLASH issue of the C3 scenario: not GSC-validated. -/
def taxIssueFirst : Issue :=
  { conflict_type := "TAXONOMY_CLASH", severity := "HIGH",
    pages := [mkFixPage 1 "/a/x" "product" "a", mkFixPage 2 "/b/x" "product" "b"],
    metadata := { IssueMetadata.empty with shared_slug := some "x" },
    gsc_validated := false }

/-- Second TAXONOMY_CLASH issue of the C3 scenario: same cluster key
(`TAXONOMY_CLASH:x`), GSC-validated (as the phase-4 upgrade pass produces). -/
def taxIssueSecond : Issue :=
  { conflict_type := "TAXONOMY_CLASH", severity := "MEDIUM",
    pages := [mkFixPage 3 "/c/x" "product" "c"],
    metadata := { query := some "q", shared_slug := some "x", title_template := none,
                  service_keyword := none, legacy_url := none,
                  total_impressions := some 500, total_clicks := some 20,
                  gsc_rows := none },
    gsc_validated := true }

/-- 30 pages for the C7 scenario: 16 under folder `a`, then 14 under `b`. -/
def oversizePages : List PageClassification :=
  ((List.range 16).map (fun i => mkFixPage i "/a/x" "product" "a")) ++
    ((List.range 14).map (fun i => mkFixPage (100 + i) "/b/x" "product" "b"))

/-- One merged issue holding the 30 pages of the C7 scenario. -/
def oversizeIssue : Issue :=
  { conflict_type := "TAXONOMY_CLASH", severity := "HIGH", pages := oversizePages,
    metadata := { IssueMetadata.empty with shared_slug := some "y" },
    gsc_validated := false }

/-- A concrete non-empty classification list for the C5 run. -/
def fixClassifications : List PageClassification :=
  [mkFixPage 1 "/services/event-planning" "service_spoke" "services"]

/-- A marker issue: were phase 4 or phase 5 invoked on the degraded C5 run,
this issue would appear in the result. -/
def markerIssue : Issue :=
  { conflict_type := "GSC_CONFIRMED", severity := "HIGH", pages := [],
    metadata := IssueMetadata.empty, gsc_validated := true }

/-- A product page winning the plural query of the C10 witness scenario. -/
def fixProductPage : PageClassification :=
  { mkFixPage 7 "/shop/dance/jazz-shoe" "product" "shop" with
      slug_tokens_json := ["jazz", "shoe"] }

/-- A category page overlapping the C10 witness query. -/
def fixCategoryPage : PageClassification :=
  { mkFixPage 8 "/shop/dance" "category_shop" "shop" with
      slug_tokens_json := ["dance", "shoes"] }

/-- The winning traffic row of the C10 witness scenario. -/
def fixWinnerRow : P5Row :=
  { query := "dance shoes", page_url := "https://example.com/shop/dance/jazz-shoe/",
    normalized_url := "example.com/shop/dance/jazz-shoe",
    page_class := fixProductPage, clicks := 20, impressions := 300 }

/-- A losing traffic row of the C10 witness scenario. -/
def fixLoserRow : P5Row :=
  { query := "dance shoes", page_url := "https://example.com/shop/dance/",
    normalized_url := "example.com/shop/dance",
    page_class := fixCategoryPage, clicks := 5, impressions := 100 }


/-- The two traffic rows of the C4 witness scenario (the repo's
`test_secondary_share_above_threshold` vectors). -/
def c4FixRows : List P5Row :=
  [{ query := "event planning brooklyn",
     page_url := "https://example.com/service-area/brooklyn/",
     normalized_url := "example.com/service-area/brooklyn",
     page_class := mkFixPage 11 "/service-area/brooklyn" "location" "service-area",
     clicks := 30, impressions := 600 },
   { query := "event planning brooklyn",
     page_url := "https://example.com/services/event-planning/",
     normalized_url := "example.com/services/event-planning",
     page_class := mkFixPage 12 "/services/event-planning" "service_spoke" "services",
     clicks := 15, impressions := 400 }]

/-- The issue the C4 witness scenario emits. -/
def c4FixIssue : Issue :=
  (_analyze_query_group "event planning brooklyn" c4FixRows).getD markerIssue

/-- The issue the C10 witness scenario emits. -/
def c10FixIssue : Issue :=
  (phase5_analyze_query "dance shoes" [fixWinnerRow, fixLoserRow]
    [fixProductPage, fixCategoryPage]).getD markerIssue

/-! ## Helper lemmas -/

/-- An if-then-else with both branches different from `x` is different from
`x`. -/
theorem ite_ne {α : Type} {c : Prop} [Decidable c] {a b x : α}
    (ha : a ≠ x) (hb : b ≠ x) : (if c then a else b) ≠ x := by
  by_cases h : c <;> simp [h, ha, hb]

theorem slug_similarity_comm (u v : String) :
    slug_similarity u v = slug_similarity v u := by
  unfold slug_similarity
  by_cases h1 : extract_slug_tokens u true = ∅ <;>
    by_cases h2 : extract_slug_tokens v true = ∅ <;>
      simp [h1, h2, Finset.inter_comm, Finset.union_comm]

theorem is_legacy_pair_comm (a b : String) :
    _is_legacy_pair a b = _is_legacy_pair b a := by
  simp only [_is_legacy_pair, decide_eq_decide]
  exact and_congr eq_comm ne_comm

theorem are_product_siblings_comm (a b : PageClassification) :
    _are_product_siblings a b = _are_product_siblings b a := by
  unfold _are_product_siblings
  rw [slug_similarity_comm]
  refine if_congr or_comm rfl ?_
  refine if_congr ne_comm rfl ?_
  refine if_congr eq_comm rfl ?_
  refine if_congr (and_congr or_comm (by rw [is_legacy_pair_comm])) rfl ?_
  exact if_congr Iff.rfl rfl rfl

theorem are_parent_child_comm (a b : PageClassification) :
    _are_parent_child a b = _are_parent_child b a := by
  unfold _are_parent_child
  exact Bool.or_comm _ _

theorem are_geographic_variants_comm (a b : PageClassification) :
    _are_geographic_variants a b = _are_geographic_variants b a := by
  unfold _are_geographic_variants
  refine if_congr or_comm rfl ?_
  refine if_congr or_comm rfl ?_
  exact if_congr eq_comm rfl rfl

/-! ## Claims -/

/-- C8: the safe-pair decision of P2 is symmetric: `_is_safe_pair(a, b) =
_is_safe_pair(b, a)` for every two classifications, across all three filters
(product siblings, direct parent–child, geographic variants). -/
theorem C8_safe_pair_symmetric (a b : PageClassification) :
    _is_safe_pair a b = _is_safe_pair b a := by
  unfold _is_safe_pair
  rw [are_product_siblings_comm, are_parent_child_comm, are_geographic_variants_comm]

/-- C9 (as stated) is false: stripping the legacy suffix is not idempotent on
a slug carrying a doubled suffix; `/page-old-old` strips to `/page-old`,
which strips again to `/page`. -/
theorem C9_counterexample :
    strip_legacy_suffix (strip_legacy_suffix "/page-old-old") ≠
      strip_legacy_suffix "/page-old-old" := by decide

/-- C9 amended: `strip_legacy` is idempotent on every URL whose stripped form
is not itself a legacy variant (its last slug does not end in a legacy
suffix). -/
theorem C9_amended (u : String)
    (h : is_legacy_variant (strip_legacy_suffix u) = false) :
    strip_legacy_suffix (strip_legacy_suffix u) = strip_legacy_suffix u := by
  generalize hv : strip_legacy_suffix u = v at h ⊢
  unfold strip_legacy_suffix
  by_cases hv0 : v = ""
  · simp [hv0]
  · rw [if_neg hv0]
    show (match (get_path_parts v).getLast? with
      | none => v
      | some last =>
        match LEGACY_SUFFIXES.find? (fun suf => suf.data.isSuffixOf last.data) with
        | none => v
        | some suf =>
          String.mk ('/' :: joinWithChar '/'
            (((get_path_parts v).dropLast ++
              [String.mk (rstripChar '-'
                (last.data.take (last.data.length - suf.data.length)))]).map String.data))) = v
    rcases hlast : (get_path_parts v).getLast? with _ | last
    · rfl
    · have hfind : LEGACY_SUFFIXES.find?
          (fun suf => suf.data.isSuffixOf last.data) = none := by
        rw [List.find?_eq_none]
        intro suf hsuf
        unfold is_legacy_variant at h
        rw [if_neg hv0] at h
        have hall := List.any_eq_false.mp h suf hsuf
        unfold get_slug_last at hall
        rw [hlast] at hall
        simpa using hall
      simp only [hfind]

/-- Witness for C9: the amended theorem applied at
`/services/event-planning-old`. -/
theorem C9_witness :
    strip_legacy_suffix (strip_legacy_suffix "/services/event-planning-old") =
      strip_legacy_suffix "/services/event-planning-old" :=
  C9_amended "/services/event-planning-old" (by decide)

/-- C2 (as stated) is false in both directions: the date rule tests only that
the first two segments are all digits and that at least three segments exist.
`/123/4/x` is classified `blog` by the date rule though `123` is no
four-digit year, and `/2024/02` (year and month, but only two segments) does
not fire it. -/
theorem C2_counterexample :
    (_classify_page_type "/123/4/x" (get_path_parts "/123/4/x")
        (get_path_parts "/123/4/x").length (get_folder_root "/123/4/x")
        none false = "blog" ∧
      ¬ specYearMonthPrefix (get_path_parts "/123/4/x")) ∧
    (_classify_page_type "/2024/02" (get_path_parts "/2024/02")
        (get_path_parts "/2024/02").length (get_folder_root "/2024/02")
        none false ≠ "blog" ∧
      specYearMonthPrefix (get_path_parts "/2024/02")) := by
  constructor
  · exact ⟨by decide, by unfold specYearMonthPrefix; decide⟩
  · exact ⟨by decide, by unfold specYearMonthPrefix; decide⟩

/-- C2 amended: for every eligible page not matched by the homepage and
location rules and whose folder root is also not in the blog-folder set, the
classification is `blog` exactly when the normalized path has at least three
segments and its first two segments are all-digit strings (of any length). -/
theorem C2_amended (path : String) (post_type : Option String) (hp : Bool)
    (hroot : ¬(path = "/" ∨ hp = true))
    (hloc : get_folder_root path ∉ FOLDER_ROOTS.location)
    (hblog : get_folder_root path ∉ FOLDER_ROOTS.blog) :
    _classify_page_type path (get_path_parts path) (get_path_parts path).length
        (get_folder_root path) post_type hp = "blog" ↔
      3 ≤ (get_path_parts path).length ∧
        pyIsdigit ((get_path_parts path).getD 0 "") = true ∧
        pyIsdigit ((get_path_parts path).getD 1 "") = true := by
  generalize hP : get_path_parts path = parts at *
  generalize hF : get_folder_root path = froot at *
  unfold _classify_page_type
  rw [if_neg hroot, if_neg hloc]
  by_cases hdate : 3 ≤ parts.length ∧
      pyIsdigit (parts.getD 0 "") = true ∧
      pyIsdigit (parts.getD 1 "") = true
  · rw [if_pos hdate]
    exact iff_of_true rfl hdate
  · rw [if_neg hdate, if_neg hblog]
    refine iff_of_false ?_ hdate
    repeat first
      | exact (by decide : ("uncategorized" : String) ≠ "blog")
      | refine ite_ne (by decide) ?_
      | refine ite_ne (ite_ne (by decide) (by decide)) ?_

/-- Witness for C2: the amended theorem applied at `/2024/02/post-title`. -/
theorem C2_witness :
    _classify_page_type "/2024/02/post-title" (get_path_parts "/2024/02/post-title")
        (get_path_parts "/2024/02/post-title").length
        (get_folder_root "/2024/02/post-title") none false = "blog" :=
  (C2_amended "/2024/02/post-title" none false (by decide) (by decide)
    (by decide)).mpr (by decide)

theorem mem_pySort {α : Type} {r : α → α → Prop} [DecidableRel r]
    {l : List α} {x : α} : x ∈ pySort r l ↔ x ∈ l :=
  List.mem_insertionSort r

theorem largestAux_ge_acc (gs : List (String × List PageClassification))
    (acc : List PageClassification) :
    acc.length ≤ (gs.foldl
      (fun best g => if best.length < g.2.length then g.2 else best) acc).length := by
  induction gs generalizing acc with
  | nil => simp
  | cons x gs ih =>
    simp only [List.foldl_cons]
    by_cases h : acc.length < x.2.length
    · rw [if_pos h]
      exact le_trans (le_of_lt h) (ih x.2)
    · rw [if_neg h]
      exact ih acc

theorem largestAux_ge_mem (gs : List (String × List PageClassification))
    (acc : List PageClassification) (g : String × List PageClassification)
    (hg : g ∈ gs) :
    g.2.length ≤ (gs.foldl
      (fun best g => if best.length < g.2.length then g.2 else best) acc).length := by
  induction gs generalizing acc with
  | nil => cases hg
  | cons x gs ih =>
    simp only [List.foldl_cons]
    rcases List.mem_cons.mp hg with hg | hg
    · subst hg
      by_cases h : acc.length < g.2.length
      · rw [if_pos h]
        exact largestAux_ge_acc gs g.2
      · rw [if_neg h]
        exact le_trans (le_of_not_lt h) (largestAux_ge_acc gs acc)
    · exact ih (if acc.length < x.2.length then x.2 else acc) hg

theorem split_large_cluster_length_le (pages : List PageClassification)
    (k : String) :
    (_split_large_cluster pages k).length ≤ MAX_CLUSTER_SIZE := by
  unfold _split_large_cluster
  dsimp only
  split_ifs <;> simp [List.length_take_le]

theorem buildCluster_pages (kv : String × ClusterAcc) :
    (buildCluster kv).pages.length ≤ MAX_CLUSTER_SIZE ∧
      (buildCluster kv).page_count = (buildCluster kv).pages.length := by
  unfold buildCluster
  dsimp only
  by_cases hover : MAX_CLUSTER_SIZE < (kv.2.pages.map (·.2)).length
  · rw [if_pos hover]
    exact ⟨split_large_cluster_length_le _ _, rfl⟩
  · rw [if_neg hover]
    exact ⟨le_of_not_lt hover, rfl⟩

/-- C6: every cluster emitted by P6 contains at most 15 pages
(`page_count ≤ 15`, and the page list itself has at most 15 entries), on both
branches of the oversize handling. -/
theorem C6_cluster_size_cap (all_issues : List Issue) (c : Cluster)
    (hc : c ∈ run_phase6 all_issues) :
    c.page_count ≤ 15 ∧ c.pages.length ≤ 15 := by
  unfold run_phase6 at hc
  by_cases hnil : all_issues = []
  · rw [if_pos hnil] at hc
    cases hc
  · rw [if_neg hnil] at hc
    rw [mem_pySort] at hc
    rcases List.mem_map.mp hc with ⟨kv, _, hbuild⟩
    rcases buildCluster_pages kv with ⟨hlen, hcount⟩
    rw [hbuild] at hlen hcount
    exact ⟨hcount.le.trans hlen, hlen⟩

/-- Witness for C6: the cap theorem applied to the single cluster produced
from a 30-page issue. -/
theorem C6_witness :
    ((run_phase6 [oversizeIssue]).headI).page_count ≤ 15 ∧
      ((run_phase6 [oversizeIssue]).headI).pages.length ≤ 15 :=
  C6_cluster_size_cap [oversizeIssue] ((run_phase6 [oversizeIssue]).headI)
    (by decide)

/-- C7 (as stated) is false: when every folder sub-group of an oversized
cluster that is ≤ 15 pages is smaller than the largest sub-group, the code
keeps the first 15 pages instead of the largest fitting sub-group.  With 16
pages under folder `a` and 14 under `b`, a sub-group of 14 fits, but the
emitted cluster keeps 15 pages. -/
theorem C7_counterexample :
    (run_phase6 [oversizeIssue]).map (fun c => c.page_count) = [15] ∧
      (folderGroups oversizeIssue.pages).map (fun g => g.2.length) = [16, 14] := by
  constructor
  · decide
  · decide

/-- C7 amended: for a merged page list, the first folder sub-group of maximal
size dominates all sub-groups; when more than one sub-group exists and that
largest sub-group has ≤ 15 pages it is emitted (even if a smaller sub-group
would also fit); otherwise — a single sub-group, or a largest sub-group above
15 pages — the first 15 pages in stable order are kept. -/
theorem C7_amended (pages : List PageClassification) (k : String) :
    (∀ g ∈ folderGroups pages,
        g.2.length ≤ (largestGroup (folderGroups pages)).length) ∧
    (1 < (folderGroups pages).length →
      (largestGroup (folderGroups pages)).length ≤ MAX_CLUSTER_SIZE →
        _split_large_cluster pages k = largestGroup (folderGroups pages)) ∧
    ((folderGroups pages).length ≤ 1 ∨
        MAX_CLUSTER_SIZE < (largestGroup (folderGroups pages)).length →
      _split_large_cluster pages k = pages.take MAX_CLUSTER_SIZE) := by
  refine ⟨fun g hg => largestAux_ge_mem _ _ g hg, fun h2 hle => ?_, fun hcase => ?_⟩
  · unfold _split_large_cluster
    rw [if_pos h2, if_pos hle]
    exact List.take_of_length_le hle
  · unfold _split_large_cluster
    rcases hcase with h1 | hbig
    · rw [if_neg (by omega)]
    · by_cases h2 : 1 < (folderGroups pages).length
      · rw [if_pos h2, if_neg (by omega)]
      · rw [if_neg h2]

/-- Witness for C7: the amended theorem applied to the 16/14 fixture, where
the largest sub-group exceeds the cap and the first 15 pages are kept. -/
theorem C7_witness :
    _split_large_cluster oversizePages "TAXONOMY_CLASH:y" =
      oversizePages.take MAX_CLUSTER_SIZE :=
  (C7_amended oversizePages "TAXONOMY_CLASH:y").2.2 (Or.inr (by decide))

theorem calculate_severity_eq_spec (shares : List ℚ) :
    _calculate_severity shares = specSeverityRule shares := by
  unfold _calculate_severity specSeverityRule
  by_cases h1 : 3 ≤ (shares.filter (fun s => mkRat 1 10 ≤ s)).length
  · rw [if_pos h1, if_pos h1]
  · rw [if_neg h1, if_neg h1]
    rcases shares with _ | ⟨a, _ | ⟨s, rest⟩⟩
    · rfl
    · rfl
    · dsimp only
      by_cases h2 : mkRat 7 20 ≤ s
      · rw [if_pos h2, if_pos h2]
      · rw [if_neg h2, if_neg h2]
        by_cases h3 : mkRat 3 20 ≤ s
        · rw [if_pos h3, if_pos ⟨h3, lt_of_not_le h2⟩]
        · rw [if_neg h3, if_neg (fun hc => h3 hc.1)]

/-- C4 (spec-modelled, phase4_gsc_validate.py is absent from src): every
GSC_CONFIRMED issue emitted by the P4 per-query analysis carries the severity
the claim describes, evaluated on the surviving rows' shares: SEVERE with ≥ 3
shares ≥ 0.10, else HIGH with secondary ≥ 0.35, else MEDIUM with secondary in
[0.15, 0.35), else LOW. -/
theorem C4_severity (query : String) (rows : List P5Row) (issue : Issue)
    (h : _analyze_query_group query rows = some issue) :
    issue.conflict_type = "GSC_CONFIRMED" ∧
      issue.severity = specSeverityRule ((p4_survivors rows).map (·.2)) := by
  unfold _analyze_query_group at h
  by_cases h0 : (rows.map (·.impressions)).sum = 0
  · rw [if_pos h0] at h
    cases h
  · rw [if_neg h0] at h
    dsimp only at h
    rcases hs : p4_survivors rows with _ | ⟨top, _ | ⟨secondary, rest⟩⟩ <;>
      rw [hs] at h
    · cases h
    · cases h
    · dsimp only at h
      by_cases h1 : mkRat 17 20 ≤ top.2
      · rw [if_pos h1] at h
        cases h
      · rw [if_neg h1] at h
        by_cases h2 : mkRat 3 20 ≤ secondary.2
        · rw [if_pos h2] at h
          cases h
          exact ⟨rfl, calculate_severity_eq_spec _⟩
        · rw [if_neg h2] at h
          cases h

/-- Witness for C4: the theorem applied to the 600/400-impression scenario of
the repo's phase-4 tests (secondary share 0.40 → HIGH). -/
theorem C4_witness :
    c4FixIssue.conflict_type = "GSC_CONFIRMED" ∧
      c4FixIssue.severity = specSeverityRule ((p4_survivors c4FixRows).map (·.2)) :=
  C4_severity "event planning brooklyn" c4FixRows c4FixIssue (by decide)

/-- C5: with GSC enabled and a throwing traffic source, the exception is
caught and the run completes with status `completed` and no phase-4/5 issues
— but `gsc_connected` remains `true` (the `include_gsc` value written at run
creation), contradicting the claim's `gsc_connected = false`.  The phase-4
and phase-5 parameters are instantiated with functions that WOULD emit a
marker issue, showing they are never invoked on the degraded path. -/
theorem C5_divergence :
    (run_analysis_model (α := Nat) (fun _ _ => []) (fun _ _ _ _ => [markerIssue])
        (fun s _ => s) (fun _ _ _ _ => [markerIssue]) fixClassifications true
        (Except.error "GSC fetch error") none "").status = "completed" ∧
    (run_analysis_model (α := Nat) (fun _ _ => []) (fun _ _ _ _ => [markerIssue])
        (fun s _ => s) (fun _ _ _ _ => [markerIssue]) fixClassifications true
        (Except.error "GSC fetch error") none "").gsc_connected = true ∧
    (run_analysis_model (α := Nat) (fun _ _ => []) (fun _ _ _ _ => [markerIssue])
        (fun s _ => s) (fun _ _ _ _ => [markerIssue]) fixClassifications true
        (Except.error "GSC fetch error") none "").gsc_issues = [] ∧
    (run_analysis_model (α := Nat) (fun _ _ => []) (fun _ _ _ _ => [markerIssue])
        (fun s _ => s) (fun _ _ _ _ => [markerIssue]) fixClassifications true
        (Except.error "GSC fetch error") none "").wrong_winner_issues = [] ∧
    (run_analysis_model (α := Nat) (fun _ _ => []) (fun _ _ _ _ => [markerIssue])
        (fun s _ => s) (fun _ _ _ _ => [markerIssue]) fixClassifications true
        (Except.error "GSC fetch error") none "").clusters = [] := by
  refine ⟨rfl, rfl, ?_, ?_, ?_⟩ <;> decide

theorem detect_shape (query : String) (winner : P5Row)
    (cls : List PageClassification) (issue : Issue)
    (h : _detect_wrong_winner query winner cls = some issue) :
    issue.pages.head? = some winner.page_class ∧ issue.pages.length ≤ 3 ∧
      (issue.conflict_type = "PAGE_TYPE_MISMATCH" ∨
          issue.conflict_type = "GEOGRAPHIC_MISMATCH" →
        issue.pages.length = 2) := by
  unfold _detect_wrong_winner at h
  dsimp only at h
  split at h
  next i heq =>
    cases h
    split at heq
    next hc1 =>
      split at heq
      next hg1 =>
        cases heq
        refine ⟨rfl, ?_, ?_⟩
        · have := List.length_take_le 2
            (List.filter (fun pc =>
              decide (pc.classified_type ∈ ["category_woo", "category_shop",
                "category_custom", "service_hub", "service_spoke", "product"] ∧
                _has_query_overlap query pc = true)) cls)
          simp only [List.length_cons]
          omega
        · intro hct
          dsimp only at hct
          rcases hct with hct | hct <;> exact absurd hct (by decide)
      next hg1 => cases heq
    next hc1 => cases heq
  next heq =>
    clear heq
    split at h
    next i heq =>
      cases h
      split at heq
      next hc2 =>
        split at heq
        next hg2 =>
          cases heq
          have hpos : 0 < (List.filter (fun pc =>
              decide (pc.classified_type ∈ ["category_woo", "category_shop",
                "category_custom"] ∧ _has_query_overlap query pc = true)) cls).length :=
            List.length_pos.mpr hg2
          refine ⟨rfl, ?_, fun _ => ?_⟩ <;>
            · simp only [List.length_cons, List.length_take]
              omega
        next hg2 => cases heq
      next hc2 => cases heq
    next heq2 =>
      clear heq2
      split at h
      next i heq =>
        cases h
        split at heq
        next hc3 =>
          split at heq
          next hg3 =>
            cases heq
            refine ⟨rfl, ?_, ?_⟩
            · have := List.length_take_le 2
                (List.filter (fun pc =>
                  decide (pc.classified_type ∈ ["service_hub", "service_spoke",
                    "product", "category_woo", "category_shop"] ∧
                    _has_query_overlap query pc = true)) cls)
              simp only [List.length_cons]
              omega
            · intro hct
              dsimp only at hct
              rcases hct with hct | hct <;> exact absurd hct (by decide)
          next hg3 => cases heq
        next hc3 => cases heq
      next heq3 =>
        clear heq3
        split at h
        next hc4 =>
          split at h
          next hcity => cases h
          next city hcity =>
            by_cases hgeo : normalize_geo city ≠ "" ∧
                (if winner.page_class.geo_node ≠ "" then
                  normalize_geo winner.page_class.geo_node else "") ≠ "" ∧
                normalize_geo city ≠
                  (if winner.page_class.geo_node ≠ "" then
                    normalize_geo winner.page_class.geo_node else "")
            · rw [if_pos hgeo] at h
              rcases hfilter : List.filter (fun pc =>
                  decide (pc.classified_type = "location" ∧
                    normalize_geo pc.geo_node = normalize_geo city)) cls
                with _ | ⟨correct, rest⟩ <;> rw [hfilter] at h
              · cases h
              · cases h
                exact ⟨rfl, by simp, fun _ => rfl⟩
            · rw [if_neg hgeo] at h
              cases h
        next hc4 => cases h

/-- C10: for every Issue emitted by the P5 per-query wrong-winner analysis,
the first element of its pages list is the winning page of a row whose
impressions dominate every row of the query group, the list has at most 3
pages, and PAGE_TYPE_MISMATCH / GEOGRAPHIC_MISMATCH issues have exactly 2. -/
theorem C10_wrong_winner_pages (query : String) (rows : List P5Row)
    (cls : List PageClassification) (issue : Issue)
    (h : phase5_analyze_query query rows cls = some issue) :
    (∃ w ∈ rows, issue.pages.head? = some w.page_class ∧
      ∀ r ∈ rows, r.impressions ≤ w.impressions) ∧
    issue.pages.length ≤ 3 ∧
    (issue.conflict_type = "PAGE_TYPE_MISMATCH" ∨
        issue.conflict_type = "GEOGRAPHIC_MISMATCH" →
      issue.pages.length = 2) := by
  haveI htot : IsTotal P5Row (fun a b => b.impressions ≤ a.impressions) :=
    ⟨fun a b => le_total b.impressions a.impressions⟩
  haveI htr : IsTrans P5Row (fun a b => b.impressions ≤ a.impressions) :=
    ⟨fun _ _ _ hab hbc => le_trans hbc hab⟩
  unfold phase5_analyze_query at h
  rcases hsort : pySort (fun a b : P5Row => b.impressions ≤ a.impressions) rows
    with _ | ⟨winner, rest⟩ <;> rw [hsort] at h
  · cases h
  · obtain ⟨hhead, hlen, h2⟩ := detect_shape query winner cls issue h
    refine ⟨⟨winner, ?_, hhead, ?_⟩, hlen, h2⟩
    · have hw : winner ∈ pySort (fun a b : P5Row => b.impressions ≤ a.impressions) rows := by
        rw [hsort]
        exact List.mem_cons_self _ _
      exact mem_pySort.mp hw
    · intro r hr
      have hsorted : List.Sorted (fun a b : P5Row => b.impressions ≤ a.impressions)
          (winner :: rest) := by
        rw [← hsort]
        exact List.sorted_insertionSort _ _
      have hmem : r ∈ winner :: rest := by
        rw [← hsort]
        exact mem_pySort.mpr hr
      rcases List.mem_cons.mp hmem with heq | hmem
      · rw [heq]
      · exact List.rel_of_sorted_cons hsorted r hmem

/-- Witness for C10: the theorem applied to the plural-query scenario with a
product winner and an overlapping category page (PAGE_TYPE_MISMATCH, two
pages). -/
theorem C10_witness :
    c10FixIssue.pages.length ≤ 3 ∧ c10FixIssue.pages.length = 2 := by
  have h := C10_wrong_winner_pages "dance shoes" [fixWinnerRow, fixLoserRow]
    [fixProductPage, fixCategoryPage] c10FixIssue (by decide)
  exact ⟨h.2.1, h.2.2 (Or.inl (by decide))⟩

theorem mergeIssue_bucket (acc : ClusterAcc) (issue : Issue) :
    (mergeIssue acc issue).bucket = acc.bucket := rfl

theorem mergeIssue_badge (acc : ClusterAcc) (issue : Issue) :
    (mergeIssue acc issue).badge = acc.badge := rfl

theorem newClusterAcc_bucket (issue : Issue) :
    (newClusterAcc issue).bucket = _get_bucket issue := rfl

theorem newClusterAcc_badge (issue : Issue) :
    (newClusterAcc issue).badge = _get_badge issue := rfl

/-- The grouping-loop invariant: each accumulator entry's bucket and badge
are those of the first issue (in input order) with a matching cluster key,
and the accumulated keys are exactly the processed issues' keys. -/
theorem clusterFold_invariant (issues : List Issue) :
    (∀ kv ∈ clusterFold issues,
      ∃ i, issues.find? (fun j => decide (_generate_cluster_key j = kv.1)) = some i ∧
        kv.2.bucket = _get_bucket i ∧ kv.2.badge = _get_badge i) ∧
    (∀ k : String, (∃ kv ∈ clusterFold issues, kv.1 = k) ↔
      ∃ i ∈ issues, _generate_cluster_key i = k) := by
  induction issues using List.reverseRecOn with
  | nil =>
    refine ⟨fun kv hkv => absurd hkv (by simp [clusterFold]), fun k => ?_⟩
    constructor
    · rintro ⟨kv, hkv, -⟩
      exact absurd hkv (by simp [clusterFold])
    · rintro ⟨i, hi, -⟩
      cases hi
  | append_singleton is j ih =>
    obtain ⟨ih1, ih2⟩ := ih
    have hstep : clusterFold (is ++ [j]) =
        (if (clusterFold is).any
            (fun kv => decide (kv.1 = _generate_cluster_key j)) then
          (clusterFold is).map (fun kv =>
            if kv.1 = _generate_cluster_key j then
              (_generate_cluster_key j, mergeIssue kv.2 j)
            else kv)
        else clusterFold is ++ [(_generate_cluster_key j, newClusterAcc j)]) := by
      unfold clusterFold
      rw [List.foldl_append]
      rfl
    by_cases hin : (clusterFold is).any
        (fun kv => decide (kv.1 = _generate_cluster_key j)) = true
    · rw [hstep, if_pos hin]
      constructor
      · intro kv' hkv'
        rcases List.mem_map.mp hkv' with ⟨kv, hkv, hupd⟩
        have hsame : kv'.1 = kv.1 ∧ kv'.2.bucket = kv.2.bucket ∧
            kv'.2.badge = kv.2.badge := by
          by_cases he : kv.1 = _generate_cluster_key j
          · rw [if_pos he] at hupd
            rw [← hupd]
            exact ⟨he.symm, mergeIssue_bucket _ _, mergeIssue_badge _ _⟩
          · rw [if_neg he] at hupd
            rw [← hupd]
            exact ⟨rfl, rfl, rfl⟩
        obtain ⟨i, hfind, hb, hbg⟩ := ih1 kv hkv
        refine ⟨i, ?_, hsame.2.1.trans hb, hsame.2.2.trans hbg⟩
        rw [hsame.1, List.find?_append, hfind]
        rfl
      · intro k
        have hkeys : (∃ kv' ∈ (clusterFold is).map (fun kv =>
            if kv.1 = _generate_cluster_key j then
              (_generate_cluster_key j, mergeIssue kv.2 j)
            else kv), kv'.1 = k) ↔ ∃ kv ∈ clusterFold is, kv.1 = k := by
          constructor
          · rintro ⟨kv', hkv', hk⟩
            rcases List.mem_map.mp hkv' with ⟨kv, hkv, hupd⟩
            refine ⟨kv, hkv, ?_⟩
            by_cases he : kv.1 = _generate_cluster_key j
            · rw [if_pos he] at hupd
              rw [he, ← hk, ← hupd]
            · rw [if_neg he] at hupd
              rw [← hk, ← hupd]
          · rintro ⟨kv, hkv, hk⟩
            by_cases he : kv.1 = _generate_cluster_key j
            · refine ⟨(_generate_cluster_key j, mergeIssue kv.2 j),
                List.mem_map.mpr ⟨kv, hkv, by rw [if_pos he]⟩, ?_⟩
              rw [← he, hk]
            · exact ⟨kv, List.mem_map.mpr ⟨kv, hkv, by rw [if_neg he]⟩, hk⟩
        rw [hkeys, ih2]
        constructor
        · rintro ⟨i, hi, hk⟩
          exact ⟨i, List.mem_append_left _ hi, hk⟩
        · rintro ⟨i, hi, hk⟩
          rcases List.mem_append.mp hi with hi | hi
          · exact ⟨i, hi, hk⟩
          · have hij : i = j := List.mem_singleton.mp hi
            subst hij
            rcases List.any_eq_true.mp hin with ⟨kv, hkv, hkey⟩
            have hkey' : kv.1 = _generate_cluster_key i := of_decide_eq_true hkey
            obtain ⟨i2, hi2, hk2⟩ :=
              (ih2 (_generate_cluster_key i)).mp ⟨kv, hkv, hkey'⟩
            exact ⟨i2, hi2, hk2.trans hk⟩
    · rw [hstep, if_neg hin]
      have hnone : is.find?
          (fun x => decide (_generate_cluster_key x = _generate_cluster_key j)) = none := by
        rw [List.find?_eq_none]
        intro x hx hpx
        have hxk : _generate_cluster_key x = _generate_cluster_key j :=
          of_decide_eq_true hpx
        obtain ⟨kv, hkv, hk⟩ := (ih2 (_generate_cluster_key j)).mpr ⟨x, hx, hxk⟩
        exact hin (List.any_eq_true.mpr ⟨kv, hkv, decide_eq_true hk⟩)
      constructor
      · intro kv' hkv'
        rcases List.mem_append.mp hkv' with hkv' | hkv'
        · obtain ⟨i, hfind, hb, hbg⟩ := ih1 kv' hkv'
          refine ⟨i, ?_, hb, hbg⟩
          rw [List.find?_append, hfind]
          rfl
        · have hkv'' : kv' = (_generate_cluster_key j, newClusterAcc j) :=
            List.mem_singleton.mp hkv'
          subst hkv''
          refine ⟨j, ?_, newClusterAcc_bucket j, newClusterAcc_badge j⟩
          rw [List.find?_append, hnone]
          simp [List.find?]
      · intro k
        constructor
        · rintro ⟨kv', hkv', hk⟩
          rcases List.mem_append.mp hkv' with hkv' | hkv'
          · obtain ⟨i, hi, hik⟩ := (ih2 k).mp ⟨kv', hkv', hk⟩
            exact ⟨i, List.mem_append_left _ hi, hik⟩
          · have hkv'' : kv' = (_generate_cluster_key j, newClusterAcc j) :=
              List.mem_singleton.mp hkv'
            subst hkv''
            exact ⟨j, List.mem_append_right _ (List.mem_singleton.mpr rfl), hk⟩
        · rintro ⟨i, hi, hik⟩
          rcases List.mem_append.mp hi with hi | hi
          · obtain ⟨kv, hkv, hk⟩ := (ih2 k).mpr ⟨i, hi, hik⟩
            exact ⟨kv, List.mem_append_left _ hkv, hk⟩
          · have hij : i = j := List.mem_singleton.mp hi
            subst hij
            exact ⟨(_generate_cluster_key i, newClusterAcc i),
              List.mem_append_right _ (List.mem_singleton.mpr rfl), hik⟩

/-- C3 (as stated) is false: bucket and badge are computed from the FIRST
issue merged into a cluster only.  Two TAXONOMY_CLASH issues share the key
`TAXONOMY_CLASH:x`; the second is gsc_validated, yet the cluster's bucket is
SITE_DUPLICATION and its badge POTENTIAL, not SEARCH_CONFLICT/CONFIRMED. -/
theorem C3_counterexample :
    (run_phase6 [taxIssueFirst, taxIssueSecond]).map (fun c => (c.bucket, c.badge)) =
        [("SITE_DUPLICATION", "POTENTIAL")] ∧
      taxIssueSecond.gsc_validated = true ∧
      _generate_cluster_key taxIssueFirst = _generate_cluster_key taxIssueSecond := by
  refine ⟨?_, rfl, ?_⟩ <;> decide

/-- C3 amended: a P6 cluster's bucket and badge are those computed from the
first issue merged into it; in particular, when that FIRST issue is
`gsc_validated` or its conflict type starts with `GSC_`, the cluster is
SEARCH_CONFLICT / CONFIRMED.  Later-merged issues cannot change bucket or
badge (only severity and the merged pages/GSC data). -/
theorem C3_amended (all_issues : List Issue) (c : Cluster)
    (hc : c ∈ run_phase6 all_issues) (i : Issue)
    (hfirst : all_issues.find?
      (fun j => decide (_generate_cluster_key j = c.cluster_key)) = some i)
    (hv : i.gsc_validated = true ∨
      "GSC_".data.isPrefixOf i.conflict_type.data = true) :
    c.bucket = "SEARCH_CONFLICT" ∧ c.badge = "CONFIRMED" := by
  unfold run_phase6 at hc
  by_cases hnil : all_issues = []
  · rw [if_pos hnil] at hc
    cases hc
  · rw [if_neg hnil] at hc
    rw [mem_pySort] at hc
    rcases List.mem_map.mp hc with ⟨kv, hkv, hbuild⟩
    have hkey : c.cluster_key = kv.1 := by
      rw [← hbuild]
      rfl
    have hbucket : c.bucket = kv.2.bucket := by
      rw [← hbuild]
      rfl
    have hbadge : c.badge = kv.2.badge := by
      rw [← hbuild]
      rfl
    obtain ⟨i2, hfind, hb, hbg⟩ := (clusterFold_invariant all_issues).1 kv hkv
    rw [hkey] at hfirst
    rw [hfind] at hfirst
    obtain rfl : i2 = i := Option.some.inj hfirst
    have hgb : _get_bucket i2 = "SEARCH_CONFLICT" := by
      unfold _get_bucket
      rw [if_pos hv]
    constructor
    · rw [hbucket, hb, hgb]
    · rw [hbadge, hbg]
      unfold _get_badge
      rw [hgb]
      rfl

/-- Witness for C3: when the validated issue comes FIRST, the amended theorem
yields SEARCH_CONFLICT / CONFIRMED. -/
theorem C3_witness :
    ((run_phase6 [taxIssueSecond, taxIssueFirst]).headI).bucket = "SEARCH_CONFLICT" ∧
      ((run_phase6 [taxIssueSecond, taxIssueFirst]).headI).badge = "CONFIRMED" :=
  C3_amended [taxIssueSecond, taxIssueFirst]
    ((run_phase6 [taxIssueSecond, taxIssueFirst]).headI) (by decide)
    taxIssueSecond (by decide) (Or.inl rfl)

/-! ## Helper lemmas for C1: the normalization pipeline -/

theorem char_toNat_ofNat_valid {n : Nat} (h : n < 55296) :
    (Char.ofNat n).toNat = n := by
  unfold Char.ofNat
  rw [dif_pos (Or.inl h)]
  rfl

theorem asciiLower_idem (c : Char) : asciiLower (asciiLower c) = asciiLower c := by
  unfold asciiLower
  by_cases h : 'A' ≤ c ∧ c ≤ 'Z'
  · rw [if_pos h, if_neg]
    intro hcon
    obtain ⟨h1, h2⟩ := h
    obtain ⟨h3, h4⟩ := hcon
    have h1' : 65 ≤ c.toNat := h1
    have h2' : c.toNat ≤ 90 := h2
    have e : (Char.ofNat (c.toNat + 32)).toNat = c.toNat + 32 :=
      char_toNat_ofNat_valid (by omega)
    have h3' : 65 ≤ (Char.ofNat (c.toNat + 32)).toNat := h3
    have h4' : (Char.ofNat (c.toNat + 32)).toNat ≤ 90 := h4
    rw [e] at h3' h4'
    omega
  · rw [if_neg h, if_neg h]

theorem mapFixed {f : Char → Char} {l : List Char} (h : ∀ c ∈ l, f c = c) :
    l.map f = l := by
  induction l with
  | nil => rfl
  | cons a l ih =>
    rw [List.map_cons, h a (List.mem_cons_self _ _),
      ih (fun c hc => h c (List.mem_cons_of_mem _ hc))]

theorem takeWhileFixed {p : Char → Bool} {l : List Char}
    (h : ∀ c ∈ l, p c = true) : l.takeWhile p = l := by
  induction l with
  | nil => rfl
  | cons a l ih =>
    rw [List.takeWhile_cons, h a (List.mem_cons_self _ _)]
    simp only [if_true]
    rw [ih (fun c hc => h c (List.mem_cons_of_mem _ hc))]

theorem dropWhileHeadFalse {p : Char → Bool} {l : List Char}
    (h : ∀ c ∈ l.head?, p c = false) : l.dropWhile p = l := by
  cases l with
  | nil => rfl
  | cons a l =>
    rw [List.dropWhile_cons, h a rfl]
    simp

theorem head?_dropWhile_false {p : Char → Bool} {l : List Char} {x : Char}
    (h : (l.dropWhile p).head? = some x) : p x = false := by
  induction l with
  | nil => cases h
  | cons a l ih =>
    rw [List.dropWhile_cons] at h
    by_cases hpa : p a = true
    · rw [hpa] at h
      simp only [if_true] at h
      exact ih h
    · rw [Bool.not_eq_true] at hpa
      rw [hpa] at h
      simp only [Bool.false_eq_true, if_false, List.head?_cons,
        Option.some.injEq] at h
      rw [← h]
      exact hpa

theorem mem_of_getLast?' {l : List Char} {a : Char} (h : l.getLast? = some a) :
    a ∈ l := by
  cases l with
  | nil => cases h
  | cons x t =>
    have hne : x :: t ≠ [] := List.cons_ne_nil _ _
    rw [List.getLast?_eq_getLast_of_ne_nil hne] at h
    have hm := List.getLast_mem hne
    rwa [Option.some.inj h] at hm

theorem rstrip_getLast_ne (ch : Char) (l : List Char) :
    (rstripChar ch l).getLast? ≠ some ch := by
  unfold rstripChar
  rw [List.getLast?_reverse]
  intro h
  have hf := head?_dropWhile_false h
  simp at hf

theorem rstrip_fixed {ch : Char} {l : List Char} (h : l.getLast? ≠ some ch) :
    rstripChar ch l = l := by
  unfold rstripChar
  rw [dropWhileHeadFalse, List.reverse_reverse]
  intro c hc
  rw [List.head?_reverse] at hc
  simp only [decide_eq_false_iff_not]
  intro hcc
  subst hcc
  exact h hc

theorem mem_rstrip {ch c : Char} {l : List Char} (hc : c ∈ rstripChar ch l) :
    c ∈ l := by
  unfold rstripChar at hc
  rw [List.mem_reverse] at hc
  have hs := (List.dropWhile_sublist _).mem hc
  rwa [List.mem_reverse] at hs

theorem mem_replaceWWW {c : Char} {l : List Char} (h : c ∈ replaceWWW l) :
    c ∈ l := by
  induction l using replaceWWW.induct with
  | case1 rest ih =>
    rw [show replaceWWW ('w' :: 'w' :: 'w' :: '.' :: rest) = replaceWWW rest
      from rfl] at h
    have := ih h
    simp [this]
  | case2 x rest hne ih =>
    rw [replaceWWW.eq_2 x rest hne] at h
    rcases List.mem_cons.mp h with h | h
    · simp [h]
    · simp [ih h]
  | case3 => cases h

theorem mem_pyStripList {c : Char} {l : List Char} (h : c ∈ pyStripList l) :
    c ∈ l := by
  unfold pyStripList at h
  rw [List.mem_reverse] at h
  have h2 := (List.dropWhile_sublist _).mem h
  rw [List.mem_reverse] at h2
  exact (List.dropWhile_sublist _).mem h2

theorem mem_pySplitparams {c : Char} {p : List Char} (h : c ∈ pySplitparams p) :
    c ∈ p := by
  unfold pySplitparams at h
  by_cases h1 : ';' ∈ p
  · rw [if_pos h1] at h
    by_cases h2 : '/' ∈ p
    · rw [if_pos h2] at h
      dsimp only at h
      by_cases h3 : ';' ∈ (p.reverse.takeWhile (· ≠ '/')).reverse
      · rw [if_pos h3] at h
        rcases List.mem_append.mp h with h | h
        · exact (List.take_sublist _ _).mem h
        · have h4 := (List.takeWhile_sublist _).mem h
          rw [List.mem_reverse] at h4
          have h5 := (List.takeWhile_sublist _).mem h4
          rwa [List.mem_reverse] at h5
      · rwa [if_neg h3] at h
    · rw [if_neg h2] at h
      exact (List.takeWhile_sublist _).mem h
  · rwa [if_neg h1] at h

theorem pySplitparams_fixed {p : List Char} (h : ';' ∉ p) :
    pySplitparams p = p := by
  unfold pySplitparams
  rw [if_neg h]

theorem splitScheme_none {l : List Char} (h : ':' ∉ l) :
    splitScheme l = none := by
  unfold splitScheme
  have hidx : l.findIdx? (· = ':') = none := by
    rw [List.findIdx?_eq_none_iff]
    intro x hx
    simp only [decide_eq_false_iff_not]
    intro hcc
    subst hcc
    exact h hx
  rw [hidx]

theorem mem_ite_or {P : Prop} [Decidable P] {x y : List Char} {c : Char}
    (h : c ∈ (if P then x else y)) : c ∈ x ∨ c ∈ y := by
  by_cases hp : P
  · rw [if_pos hp] at h
    exact Or.inl h
  · rw [if_neg hp] at h
    exact Or.inr h

theorem splitScheme_rest_mem {l a b : List Char}
    (h : splitScheme l = some (a, b)) : ∀ c ∈ b, c ∈ l := by
  unfold splitScheme at h
  rcases hidx : l.findIdx? (· = ':') with _ | i <;> rw [hidx] at h
  · cases h
  · dsimp only at h
    split_ifs at h with hcond
    obtain ⟨-, rfl⟩ := Prod.mk.injEq .. ▸ Option.some.inj h
    intro c hc
    exact (List.drop_sublist _ _).mem hc

theorem restMem {l0 : List Char} {c : Char}
    (h : c ∈ (match splitScheme l0 with | some (_, b) => b | none => l0)) :
    c ∈ l0 := by
  rcases hsch : splitScheme l0 with _ | ⟨a, b⟩ <;> rw [hsch] at h
  · exact h
  · exact splitScheme_rest_mem hsch c h

theorem mem_l0 {u : String} {c : Char}
    (hc : c ∈ removeUnsafeBytes (pyStrip (pyLower u)).data) :
    asciiLower c = c ∧ (c = '\t' || c = '\x0d' || c = '\n') = false := by
  constructor
  · have h1 : c ∈ (pyStrip (pyLower u)).data := (List.filter_sublist _).mem hc
    have h3 := mem_pyStripList (show c ∈ pyStripList (pyLower u).data from h1)
    rcases List.mem_map.mp (show c ∈ u.data.map asciiLower from h3) with ⟨d, -, rfl⟩
    exact asciiLower_idem d
  · have h2 := List.of_mem_filter hc
    simpa using h2

theorem pyUrlparse_netloc_mem {s : String} {c : Char}
    (hc : c ∈ (pyUrlparse s).netloc) :
    c ∈ removeUnsafeBytes s.data ∧ isNetlocDelim c = false := by
  unfold pyUrlparse at hc
  dsimp only at hc
  rcases mem_ite_or hc with hc | hc
  · refine ⟨?_, ?_⟩
    · exact restMem ((List.drop_sublist _ _).mem ((List.takeWhile_sublist _).mem hc))
    · have := List.mem_takeWhile_imp hc
      simpa using this
  · cases hc

theorem pyUrlparse_path_mem {s : String} {c : Char}
    (hc : c ∈ (pyUrlparse s).path) :
    c ∈ removeUnsafeBytes s.data ∧ c ≠ '#' ∧ c ≠ '?' := by
  unfold pyUrlparse at hc
  dsimp only at hc
  have h1 := mem_pySplitparams hc
  have hpred := List.mem_takeWhile_imp h1
  have h3 := (List.takeWhile_sublist _).mem h1
  refine ⟨?_, by simpa using hpred⟩
  rcases mem_ite_or h3 with h3 | h3
  · exact restMem ((List.drop_sublist _ _).mem ((List.dropWhile_sublist _).mem h3))
  · exact restMem h3

theorem mem_normalize_chars (u : String) (c : Char)
    (hc : c ∈ (normalize_full_url u).data) :
    asciiLower c = c ∧ (c = '\t' || c = '\x0d' || c = '\n') = false ∧
      c ≠ '#' ∧ c ≠ '?' := by
  unfold normalize_full_url at hc
  by_cases h0 : u = ""
  · rw [if_pos h0] at hc
    cases hc
  · rw [if_neg h0] at hc
    dsimp only at hc
    rcases List.mem_append.mp hc with hc | hc
    · have h1 := mem_replaceWWW hc
      obtain ⟨hl0, hdelim⟩ := pyUrlparse_netloc_mem h1
      obtain ⟨hfix, huns⟩ := mem_l0 hl0
      refine ⟨hfix, huns, ?_, ?_⟩ <;>
        · intro hcc
          subst hcc
          simp [isNetlocDelim] at hdelim
    · have h1 := mem_rstrip hc
      obtain ⟨hl0, hne⟩ := pyUrlparse_path_mem h1
      obtain ⟨hfix, huns⟩ := mem_l0 hl0
      exact ⟨hfix, huns, hne⟩

theorem normalize_getLast_ne_slash (u : String) :
    (normalize_full_url u).data.getLast? ≠ some '/' := by
  unfold normalize_full_url
  by_cases h0 : u = ""
  · rw [if_pos h0]
    intro h
    cases h
  · rw [if_neg h0]
    dsimp only
    intro hlast
    by_cases hr : rstripChar '/' (pyUrlparse (pyStrip (pyLower u))).path = []
    · rw [hr, List.append_nil] at hlast
      have hmem := mem_of_getLast?' hlast
      have h1 := mem_replaceWWW hmem
      have hdelim := (pyUrlparse_netloc_mem h1).2
      simp [isNetlocDelim] at hdelim
    · rw [List.getLast?_append_of_ne_nil _ hr] at hlast
      exact rstrip_getLast_ne _ _ hlast

/-- The fixed-point lemma behind C1: a string that is lowercase,
unsafe-byte-free, `#`/`?`-free, has no `:` or `;`, does not start with `//`,
neither starts nor ends with whitespace, and does not end with `/`, is left
unchanged by `normalize_full_url`. -/
theorem normalize_fixed (v : String)
    (hlow : ∀ c ∈ v.data, asciiLower c = c)
    (huns : ∀ c ∈ v.data, (c = '\t' || c = '\x0d' || c = '\n') = false)
    (hhashq : ∀ c ∈ v.data, c ≠ '#' ∧ c ≠ '?')
    (hcolon : ':' ∉ v.data)
    (hsemi : ';' ∉ v.data)
    (hslash2 : v.data.take 2 ≠ ['/', '/'])
    (hhead : ∀ c ∈ v.data.head?, isPyWs c = false)
    (hlastws : ∀ c ∈ v.data.getLast?, isPyWs c = false)
    (hslash : v.data.getLast? ≠ some '/') :
    normalize_full_url v = v := by
  by_cases h0 : v = ""
  · rw [h0]
    rfl
  · unfold normalize_full_url
    rw [if_neg h0]
    have hlower : pyLower v = v := by
      show String.mk (v.data.map asciiLower) = v
      rw [mapFixed hlow]
    rw [hlower]
    have hstrip : pyStrip v = v := by
      show String.mk (pyStripList v.data) = v
      unfold pyStripList
      rw [dropWhileHeadFalse hhead,
        dropWhileHeadFalse (by
          intro c hc
          rw [List.head?_reverse] at hc
          exact hlastws c hc),
        List.reverse_reverse]
    rw [hstrip]
    have hl0 : removeUnsafeBytes v.data = v.data := by
      unfold removeUnsafeBytes
      apply List.filter_eq_self.mpr
      intro a ha
      simpa using huns a ha
    have hparse : pyUrlparse v = ⟨[], [], v.data⟩ := by
      unfold pyUrlparse
      dsimp only
      rw [hl0, splitScheme_none hcolon]
      dsimp only
      rw [if_neg hslash2, if_neg hslash2]
      rw [takeWhileFixed (by
        intro c hcmem
        have := hhashq c hcmem
        simp [this.1, this.2])]
      rw [pySplitparams_fixed hsemi]
    rw [hparse]
    dsimp only
    rw [rstrip_fixed hslash]
    show String.mk ([] ++ v.data) = v
    rw [List.nil_append]

/-- C1 (as stated) is false: a URL with a port is not idempotent under
normalization.  `http://h:8080/a` normalizes to `h:8080/a`; re-parsing that
output treats `h` as a URL scheme, so a second application yields `8080/a`. -/
theorem C1_counterexample :
    normalize_full_url "http://h:8080/a" = "h:8080/a" ∧
      normalize_full_url (normalize_full_url "http://h:8080/a") = "8080/a" ∧
      normalize_full_url (normalize_full_url "http://h:8080/a") ≠
        normalize_full_url "http://h:8080/a" := by
  exact ⟨by decide, by decide, by decide⟩

/-- C1 amended: normalization is idempotent on every URL whose normalized
form contains no `:` and no `;`, does not begin with `//`, and neither
begins nor ends with whitespace.  (The normalized form of any URL is already
lowercase, free of `#`, `?` and tab/CR/LF, and does not end in `/`; those
facts are proved, not assumed.) -/
theorem C1_amended (u : String)
    (hcolon : ':' ∉ (normalize_full_url u).data)
    (hsemi : ';' ∉ (normalize_full_url u).data)
    (hslash2 : (normalize_full_url u).data.take 2 ≠ ['/', '/'])
    (hhead : ∀ c ∈ (normalize_full_url u).data.head?, isPyWs c = false)
    (hlastws : ∀ c ∈ (normalize_full_url u).data.getLast?, isPyWs c = false) :
    normalize_full_url (normalize_full_url u) = normalize_full_url u :=
  normalize_fixed _ (fun c hc => (mem_normalize_chars u c hc).1)
    (fun c hc => (mem_normalize_chars u c hc).2.1)
    (fun c hc => (mem_normalize_chars u c hc).2.2)
    hcolon hsemi hslash2 hhead hlastws (normalize_getLast_ne_slash u)

/-- Witness for C1: the amended theorem applied to an ordinary URL with
`www.`, query and fragment. -/
theorem C1_witness :
    normalize_full_url
        (normalize_full_url "https://www.example.com/page/?utm=123#section") =
      normalize_full_url "https://www.example.com/page/?utm=123#section" :=
  C1_amended "https://www.example.com/page/?utm=123#section"
    (by decide) (by decide) (by decide)
    (by
      intro c hc
      have h2 : some 'e' = some c := hc
      cases h2
      decide)
    (by
      intro c hc
      have h2 : some 'e' = some c := hc
      cases h2
      decide)

end Siloq
